import Mathlib

/-!
Verification of the resource-librarian catalog subsystem.

This file is a shallow embedding of the Python sources under
`src/resourcelibrarian`: the manifest data model (`models/book.py`,
`models/video.py`), YAML manifest I/O (`utils/io.py`), the catalog model
(`models/catalog.py`), the catalog manager (`core/catalog_manager.py`) and
the book ingestion destination logic (`sources/book_ingestion.py`).

Modelling conventions:
- The YAML text layer (`yaml.dump` / `yaml.safe_load`) is modelled as the
  identity on structured values: a file holds either a parsed `Yaml` value
  or is `corrupt` (the state in which `yaml.safe_load` raises).
- Python `str` is Lean `String`; `str.lower` is modelled at the ASCII
  level by `Char.toLower`.
- `pathlib.Path` is a list of path components relative to the library
  root.
- Python `dict[str, T]` values are association lists `List (String × T)`;
  keys written by this program are unique, and lookup takes the first
  occurrence.
- `datetime` is modelled at second resolution (`PyDateTime`) together
  with its ISO-8601 `isoformat` / parse pair, which is what
  `VideoManifest.to_yaml_dict` and pydantic's datetime validator use.
- Exceptions become `Except` values; functions the Python code makes
  total by construction are total Lean functions.
-/

/-- A parsed YAML value, restricted to the scalar kinds this program
reads and writes (strings, null, integers, sequences, string-keyed
mappings). -/
inductive Yaml where
  | nullV : Yaml
  | str : String → Yaml
  | int : Int → Yaml
  | arr : List Yaml → Yaml
  | dict : List (String × Yaml) → Yaml

/-- Value of one entry of `VideoManifest.thumbnails`, whose Python type is
`dict[str, Union[str, dict]]`: each value is either a bare URL string or a
dictionary (from the YouTube API) with arbitrary contents. -/
inductive ThumbVal where
  | vstr : String → ThumbVal
  | vdict : List (String × Yaml) → ThumbVal

/-- Model of a (naive) Python `datetime` at second resolution, the
precision the video manifests use for `publishedAt`. -/
structure PyDateTime where
  year : Nat
  month : Nat
  day : Nat
  hour : Nat
  minute : Nat
  second : Nat
deriving DecidableEq

/-- Range constraints Python's `datetime` enforces on its components. -/
def ValidDT (d : PyDateTime) : Prop :=
  1 ≤ d.year ∧ d.year ≤ 9999 ∧ 1 ≤ d.month ∧ d.month ≤ 12 ∧
  1 ≤ d.day ∧ d.day ≤ 31 ∧ d.hour < 24 ∧ d.minute < 60 ∧ d.second < 60

instance (d : PyDateTime) : Decidable (ValidDT d) := by
  unfold ValidDT; infer_instance

/-- ASCII digit character for `n < 10`. -/
def digitChar (n : Nat) : Char := Char.ofNat (48 + n)

/-- Two-digit zero-padded rendering (`%02d`) of `n < 100`. -/
def pad2 (n : Nat) : List Char := [digitChar (n / 10), digitChar (n % 10)]

/-- Four-digit zero-padded rendering (`%04d`) of `n < 10000`. -/
def pad4 (n : Nat) : List Char :=
  [digitChar (n / 1000), digitChar (n / 100 % 10), digitChar (n / 10 % 10),
   digitChar (n % 10)]

/-- Model of `datetime.isoformat()` for a second-resolution naive
datetime: `YYYY-MM-DDTHH:MM:SS`. -/
def isoformat (d : PyDateTime) : String :=
  ⟨pad4 d.year ++ '-' :: pad2 d.month ++ '-' :: pad2 d.day ++
   'T' :: pad2 d.hour ++ ':' :: pad2 d.minute ++ ':' :: pad2 d.second⟩

/-- Decode one ASCII digit. -/
def decDigit (c : Char) : Option Nat :=
  if 48 ≤ c.toNat ∧ c.toNat ≤ 57 then some (c.toNat - 48) else none

/-- Decode two digits into a number below 100. -/
def dec2 (a b : Char) : Option Nat :=
  (decDigit a).bind fun x => (decDigit b).map fun y => 10 * x + y

/-- Decode four digits into a number below 10000. -/
def dec4 (a b c d : Char) : Option Nat :=
  (decDigit a).bind fun x1 => (decDigit b).bind fun x2 =>
  (decDigit c).bind fun x3 => (decDigit d).map fun x4 =>
  1000 * x1 + 100 * x2 + 10 * x3 + x4

/-- Model of pydantic's ISO-8601 datetime parsing, restricted to the
`YYYY-MM-DDTHH:MM:SS` shape that `isoformat` produces. -/
def fromIso (s : String) : Option PyDateTime :=
  match s.data with
  | [y1, y2, y3, y4, c1, a1, a2, c2, b1, b2, c3, h1, h2, c4, m1, m2, c5, e1, e2] =>
    if c1 = '-' ∧ c2 = '-' ∧ c3 = 'T' ∧ c4 = ':' ∧ c5 = ':' then
      (dec4 y1 y2 y3 y4).bind fun y =>
      (dec2 a1 a2).bind fun mo =>
      (dec2 b1 b2).bind fun da =>
      (dec2 h1 h2).bind fun ho =>
      (dec2 m1 m2).bind fun mi =>
      (dec2 e1 e2).map fun se => ⟨y, mo, da, ho, mi, se⟩
    else none
  | _ => none

theorem decDigit_digitChar (k : Nat) (h : k < 10) :
    decDigit (digitChar k) = some k := by
  interval_cases k <;> rfl

theorem dec2_pad2 (n : Nat) (h : n < 100) :
    dec2 (digitChar (n / 10)) (digitChar (n % 10)) = some n := by
  rw [dec2, decDigit_digitChar _ (by omega), decDigit_digitChar _ (by omega)]
  simp only [Option.some_bind, Option.map_some']
  congr 1
  omega

theorem dec4_pad4 (n : Nat) (h : n < 10000) :
    dec4 (digitChar (n / 1000)) (digitChar (n / 100 % 10))
      (digitChar (n / 10 % 10)) (digitChar (n % 10)) = some n := by
  rw [dec4, decDigit_digitChar _ (by omega), decDigit_digitChar _ (by omega),
    decDigit_digitChar _ (by omega), decDigit_digitChar _ (by omega)]
  simp only [Option.some_bind, Option.map_some']
  congr 1
  omega

theorem fromIso_isoformat (d : PyDateTime) (h : ValidDT d) :
    fromIso (isoformat d) = some d := by
  obtain ⟨y, mo, da, ho, mi, se⟩ := d
  simp only [ValidDT] at h
  obtain ⟨h1, h2, h3, h4, h5, h6, h7, h8, h9⟩ := h
  simp only [isoformat, pad4, pad2, List.cons_append, List.nil_append]
  simp only [fromIso]
  rw [dec4_pad4 y (by omega), dec2_pad2 mo (by omega), dec2_pad2 da (by omega),
    dec2_pad2 ho (by omega), dec2_pad2 mi (by omega), dec2_pad2 se (by omega)]
  rfl

/-- Manifest file for a book source (`models/book.py`, `BookManifest`).
Field order and defaults follow the pydantic model. -/
structure BookManifest where
  title : String
  author : String
  categories : List String
  isbn : Option String
  source_folder : String
  formats : List (String × String)
  summaries : List (String × String)
  tags : List String
  embedding_status : String

/-- Manifest file for a YouTube video source (`models/video.py`,
`VideoManifest`). -/
structure VideoManifest where
  videoId : String
  title : String
  description : String
  url : Option String
  thumbnails : List (String × ThumbVal)
  channelId : String
  channelTitle : String
  tags : List String
  categories : List String
  categoryId : Option String
  publishedAt : Option PyDateTime
  defaultLanguage : Option String
  defaultAudioLanguage : Option String
  source : List (String × String)
  summaries : List (String × String)
  pointers : List (String × String)

/-- Encode a list of strings as a YAML sequence. -/
def encStrList (l : List String) : Yaml := .arr (l.map .str)

/-- Encode a string-to-string mapping as a YAML mapping. -/
def encStrMap (l : List (String × String)) : Yaml :=
  .dict (l.map fun p => (p.1, .str p.2))

/-- Encode an optional string: Python `None` serializes as YAML null. -/
def encOptStr : Option String → Yaml
  | none => .nullV
  | some s => .str s

/-- Encode one thumbnail value. -/
def encThumb : ThumbVal → Yaml
  | .vstr s => .str s
  | .vdict m => .dict m

/-- Encode the thumbnails mapping. -/
def encThumbMap (l : List (String × ThumbVal)) : Yaml :=
  .dict (l.map fun p => (p.1, encThumb p.2))

/-- Encode `publishedAt`: `self.publishedAt.isoformat() if self.publishedAt
else None` in `VideoManifest.to_yaml_dict`. -/
def encOptDT : Option PyDateTime → Yaml
  | none => .nullV
  | some d => .str (isoformat d)

namespace BookManifest

/-- Model of `BookManifest.to_yaml_dict` from `models/book.py`. -/
def to_yaml_dict (m : BookManifest) : Yaml :=
  .dict [("title", .str m.title), ("author", .str m.author),
         ("categories", encStrList m.categories), ("isbn", encOptStr m.isbn),
         ("source_folder", .str m.source_folder),
         ("formats", encStrMap m.formats), ("summaries", encStrMap m.summaries),
         ("tags", encStrList m.tags),
         ("embedding_status", .str m.embedding_status)]

end BookManifest

namespace VideoManifest

/-- Model of `VideoManifest.to_yaml_dict` from `models/video.py`. -/
def to_yaml_dict (m : VideoManifest) : Yaml :=
  .dict [("videoId", .str m.videoId), ("title", .str m.title),
         ("description", .str m.description), ("url", encOptStr m.url),
         ("thumbnails", encThumbMap m.thumbnails),
         ("channelId", .str m.channelId), ("channelTitle", .str m.channelTitle),
         ("tags", encStrList m.tags), ("categories", encStrList m.categories),
         ("categoryId", encOptStr m.categoryId),
         ("publishedAt", encOptDT m.publishedAt),
         ("defaultLanguage", encOptStr m.defaultLanguage),
         ("defaultAudioLanguage", encOptStr m.defaultAudioLanguage),
         ("source", encStrMap m.source), ("summaries", encStrMap m.summaries),
         ("pointers", encStrMap m.pointers)]

end VideoManifest

/-- Key lookup in a YAML mapping (Python `dict` access; keys written by
this program are unique). -/
def lookupKey (l : List (String × Yaml)) (k : String) : Option Yaml :=
  match l with
  | [] => none
  | (k2, v) :: rest => if k2 = k then some v else lookupKey rest k

/-- Pydantic `str` field validation: the value must be a string. -/
def asStr : Yaml → Option String
  | .str s => some s
  | _ => none

/-- Pydantic `Optional[str]` field validation: null or a string. -/
def asOptStr : Yaml → Option (Option String)
  | .nullV => some none
  | .str s => some (some s)
  | _ => none

/-- Pydantic `list[str]` element validation. -/
def asStrItems : List Yaml → Option (List String)
  | [] => some []
  | v :: rest =>
    (asStr v).bind fun s => (asStrItems rest).map fun l => s :: l

/-- Pydantic `list[str]` field validation: the value must be a sequence of
strings. -/
def asStrList : Yaml → Option (List String)
  | .arr items => asStrItems items
  | _ => none

/-- Pydantic `dict[str, str]` entry validation. -/
def asStrMapEntries : List (String × Yaml) → Option (List (String × String))
  | [] => some []
  | (k, v) :: rest =>
    (asStr v).bind fun s => (asStrMapEntries rest).map fun l => (k, s) :: l

/-- Pydantic `dict[str, str]` field validation. -/
def asStrMap : Yaml → Option (List (String × String))
  | .dict entries => asStrMapEntries entries
  | _ => none

/-- Pydantic `Union[str, dict]` validation for one thumbnail value. -/
def asThumb : Yaml → Option ThumbVal
  | .str s => some (.vstr s)
  | .dict m => some (.vdict m)
  | _ => none

/-- Pydantic validation of the `thumbnails` mapping entries. -/
def asThumbEntries : List (String × Yaml) → Option (List (String × ThumbVal))
  | [] => some []
  | (k, v) :: rest =>
    (asThumb v).bind fun t => (asThumbEntries rest).map fun l => (k, t) :: l

/-- Pydantic validation of the `thumbnails` field. -/
def asThumbMap : Yaml → Option (List (String × ThumbVal))
  | .dict entries => asThumbEntries entries
  | _ => none

/-- Pydantic `Optional[datetime]` validation: null, or an ISO-8601 string. -/
def asOptDT : Yaml → Option (Option PyDateTime)
  | .nullV => some none
  | .str s => (fromIso s).map some
  | _ => none

/-- Read a required string field: absent or non-string raises a pydantic
`ValidationError`, modelled as `none`. -/
def reqStr (d : List (String × Yaml)) (k : String) : Option String :=
  (lookupKey d k).bind asStr

/-- Read a `list[str]` field whose pydantic default is the empty list. -/
def fieldStrList (d : List (String × Yaml)) (k : String) : Option (List String) :=
  match lookupKey d k with
  | none => some []
  | some v => asStrList v

/-- Read a `dict[str, str]` field whose pydantic default is the empty
mapping. -/
def fieldStrMap (d : List (String × Yaml)) (k : String) :
    Option (List (String × String)) :=
  match lookupKey d k with
  | none => some []
  | some v => asStrMap v

/-- Read an `Optional[str]` field with a default value for an absent key. -/
def fieldOptStr (d : List (String × Yaml)) (k : String) (dflt : Option String) :
    Option (Option String) :=
  match lookupKey d k with
  | none => some dflt
  | some v => asOptStr v

/-- Read a `str` field with a default value for an absent key. -/
def fieldStrD (d : List (String × Yaml)) (k : String) (dflt : String) :
    Option String :=
  match lookupKey d k with
  | none => some dflt
  | some v => asStr v

/-- Read the `thumbnails` field (default: empty mapping). -/
def fieldThumbs (d : List (String × Yaml)) (k : String) :
    Option (List (String × ThumbVal)) :=
  match lookupKey d k with
  | none => some []
  | some v => asThumbMap v

/-- Read the `publishedAt` field (default: `None`). -/
def fieldOptDT (d : List (String × Yaml)) (k : String) :
    Option (Option PyDateTime) :=
  match lookupKey d k with
  | none => some none
  | some v => asOptDT v

/-- Model of `BookManifest(**data)`: pydantic validation of a parsed YAML
value against the `BookManifest` model (`utils/io.py`,
`load_book_manifest`). Extra keys are ignored; `none` models a
`ValidationError` (or the `TypeError` when the value is not a mapping). -/
def decodeBookManifest (v : Yaml) : Option BookManifest :=
  match v with
  | .dict d =>
    (reqStr d "title").bind fun title =>
    (reqStr d "author").bind fun author =>
    (fieldStrList d "categories").bind fun categories =>
    (fieldOptStr d "isbn" none).bind fun isbn =>
    (reqStr d "source_folder").bind fun source_folder =>
    (fieldStrMap d "formats").bind fun formats =>
    (fieldStrMap d "summaries").bind fun summaries =>
    (fieldStrList d "tags").bind fun tags =>
    (fieldStrD d "embedding_status" "pending").map fun embedding_status =>
    ⟨title, author, categories, isbn, source_folder, formats, summaries,
     tags, embedding_status⟩
  | _ => none

/-- Model of `VideoManifest(**data)`: pydantic validation of a parsed YAML
value against the `VideoManifest` model (`utils/io.py`,
`load_video_manifest`). -/
def decodeVideoManifest (v : Yaml) : Option VideoManifest :=
  match v with
  | .dict d =>
    (reqStr d "videoId").bind fun videoId =>
    (reqStr d "title").bind fun title =>
    (fieldStrD d "description" "").bind fun description =>
    (fieldOptStr d "url" none).bind fun url =>
    (fieldThumbs d "thumbnails").bind fun thumbnails =>
    (reqStr d "channelId").bind fun channelId =>
    (reqStr d "channelTitle").bind fun channelTitle =>
    (fieldStrList d "tags").bind fun tags =>
    (fieldStrList d "categories").bind fun categories =>
    (fieldOptStr d "categoryId" none).bind fun categoryId =>
    (fieldOptDT d "publishedAt").bind fun publishedAt =>
    (fieldOptStr d "defaultLanguage" (some "en")).bind fun defaultLanguage =>
    (fieldOptStr d "defaultAudioLanguage" (some "en")).bind
      fun defaultAudioLanguage =>
    (fieldStrMap d "source").bind fun source =>
    (fieldStrMap d "summaries").bind fun summaries =>
    (fieldStrMap d "pointers").map fun pointers =>
    ⟨videoId, title, description, url, thumbnails, channelId, channelTitle,
     tags, categories, categoryId, publishedAt, defaultLanguage,
     defaultAudioLanguage, source, summaries, pointers⟩
  | _ => none

theorem asStrItems_enc (l : List String) :
    asStrItems (l.map Yaml.str) = some l := by
  induction l with
  | nil => rfl
  | cons s rest ih => simp [asStrItems, asStr, ih]

theorem asStrList_enc (l : List String) : asStrList (encStrList l) = some l := by
  simp [asStrList, encStrList, asStrItems_enc]

theorem asStrMapEntries_enc (l : List (String × String)) :
    asStrMapEntries (l.map fun p => (p.1, Yaml.str p.2)) = some l := by
  induction l with
  | nil => rfl
  | cons p rest ih => simp [asStrMapEntries, asStr, ih]

theorem asStrMap_enc (l : List (String × String)) :
    asStrMap (encStrMap l) = some l := by
  simp [asStrMap, encStrMap, asStrMapEntries_enc]

theorem asOptStr_enc (o : Option String) : asOptStr (encOptStr o) = some o := by
  cases o <;> rfl

theorem asThumb_enc (t : ThumbVal) : asThumb (encThumb t) = some t := by
  cases t <;> rfl

theorem asThumbEntries_enc (l : List (String × ThumbVal)) :
    asThumbEntries (l.map fun p => (p.1, encThumb p.2)) = some l := by
  induction l with
  | nil => rfl
  | cons p rest ih => simp [asThumbEntries, asThumb_enc, ih]

theorem asThumbMap_enc (l : List (String × ThumbVal)) :
    asThumbMap (encThumbMap l) = some l := by
  simp [asThumbMap, encThumbMap, asThumbEntries_enc]

theorem asOptDT_enc (o : Option PyDateTime) (h : ∀ d, o = some d → ValidDT d) :
    asOptDT (encOptDT o) = some o := by
  cases o with
  | none => rfl
  | some d => simp [encOptDT, asOptDT, fromIso_isoformat d (h d rfl)]

/-- Round-trip for book manifests: pydantic validation of
`to_yaml_dict` output recovers every field exactly. -/
theorem decode_book_to_yaml_dict (m : BookManifest) :
    decodeBookManifest m.to_yaml_dict = some m := by
  obtain ⟨title, author, categories, isbn, source_folder, formats,
    summaries, tags, embedding_status⟩ := m
  simp [decodeBookManifest, BookManifest.to_yaml_dict, lookupKey, reqStr,
    fieldStrList, fieldOptStr, fieldStrMap, fieldStrD, asStr,
    asStrList_enc, asStrMap_enc, asOptStr_enc]

/-- Round-trip for video manifests with an in-range `publishedAt`. -/
theorem decode_video_to_yaml_dict (m : VideoManifest)
    (h : ∀ d, m.publishedAt = some d → ValidDT d) :
    decodeVideoManifest m.to_yaml_dict = some m := by
  obtain ⟨videoId, title, description, url, thumbnails, channelId,
    channelTitle, tags, categories, categoryId, publishedAt,
    defaultLanguage, defaultAudioLanguage, source, summaries, pointers⟩ := m
  simp only [VideoManifest.publishedAt] at h
  simp [decodeVideoManifest, VideoManifest.to_yaml_dict, lookupKey, reqStr,
    fieldStrList, fieldOptStr, fieldStrMap, fieldStrD, fieldThumbs,
    fieldOptDT, asStr, asStrList_enc, asStrMap_enc, asOptStr_enc,
    asThumbMap_enc, asOptDT_enc _ h]

/-- A filesystem path, as a list of components relative to the library
root (model of `pathlib.Path`). -/
abbrev LibPath : Type := List String

/-- A book in the library (`models/book.py`, `Book`): its folder plus its
parsed manifest. -/
structure Book where
  folder_path : LibPath
  manifest : BookManifest

namespace Book

/-- Model of `Book.title` property. -/
def title (b : Book) : String := b.manifest.title

/-- Model of `Book.author` property. -/
def author (b : Book) : String := b.manifest.author

/-- Model of `Book.categories` property. -/
def categories (b : Book) : List String := b.manifest.categories

/-- Model of `Book.tags` property. -/
def tags (b : Book) : List String := b.manifest.tags

end Book

/-- A video in the library (`models/video.py`, `Video`). -/
structure Video where
  folder_path : LibPath
  manifest : VideoManifest

namespace Video

/-- Model of `Video.video_id` property. -/
def video_id (v : Video) : String := v.manifest.videoId

/-- Model of `Video.title` property. -/
def title (v : Video) : String := v.manifest.title

/-- Model of `Video.channel_id` property. -/
def channel_id (v : Video) : String := v.manifest.channelId

/-- Model of `Video.channel_title` property. -/
def channel_title (v : Video) : String := v.manifest.channelTitle

/-- Model of `Video.tags` property. -/
def tags (v : Video) : List String := v.manifest.tags

/-- Model of `Video.published_at` property. -/
def published_at (v : Video) : Option PyDateTime := v.manifest.publishedAt

end Video

/-- First-occurrence lookup in a string-to-string mapping (Python `dict`
`in`-test plus subscript, as used by the path accessors). -/
def lookupStr (l : List (String × String)) (k : String) : Option String :=
  match l with
  | [] => none
  | (k2, v) :: rest => if k2 = k then some v else lookupStr rest k

/-- Model of `Path.__truediv__` with a relative string: the string is
split into its slash-separated components. -/
def pathJoin (p : LibPath) (rel : String) : LibPath :=
  p ++ rel.splitOn "/"

namespace Book

/-- Model of `Book.get_format_path` from `models/book.py`. -/
def get_format_path (b : Book) (format_type : String) : Option LibPath :=
  match lookupStr b.manifest.formats format_type with
  | some rel => some (pathJoin b.folder_path rel)
  | none => none

/-- Model of `Book.get_summary_path` from `models/book.py`. -/
def get_summary_path (b : Book) (summary_type : String) : Option LibPath :=
  match lookupStr b.manifest.summaries summary_type with
  | some rel => some (pathJoin b.folder_path rel)
  | none => none

/-- Model of `Book.list_formats` from `models/book.py`. -/
def list_formats (b : Book) : List String := b.manifest.formats.map Prod.fst

/-- Model of `Book.list_summaries` from `models/book.py`. -/
def list_summaries (b : Book) : List String := b.manifest.summaries.map Prod.fst

end Book

namespace Video

/-- Model of `Video.get_summary_path` from `models/video.py`. -/
def get_summary_path (v : Video) (summary_type : String) : Option LibPath :=
  match lookupStr v.manifest.summaries summary_type with
  | some rel => some (pathJoin v.folder_path rel)
  | none => none

/-- Model of `Video.list_summaries` from `models/video.py`. -/
def list_summaries (v : Video) : List String := v.manifest.summaries.map Prod.fst

end Video

/-- Model of Python `str.lower()` at the ASCII level. Defined by
structural recursion over the character list (unlike `String.toLower`)
so that it evaluates inside the kernel. -/
def strLower (s : String) : String := ⟨s.data.map Char.toLower⟩

/-- Model of Python truthiness of a string (`if s:`): empty is falsy. -/
def strIsEmpty (s : String) : Bool :=
  match s.data with
  | [] => true
  | _ :: _ => false

/-- Model of Python `str.strip()`: drop whitespace from both ends. -/
def strTrim (s : String) : String :=
  ⟨((s.data.dropWhile Char.isWhitespace).reverse.dropWhile
      Char.isWhitespace).reverse⟩

/-- Model of Python `sep.join(parts)`. -/
def joinWith (sep : String) : List String → String
  | [] => ""
  | [x] => x
  | x :: rest => x ++ sep ++ joinWith sep rest

/-- Does `hay` start with `needle`? (helper for Python's `in` on
strings). -/
def startsWithL : List Char → List Char → Bool
  | _, [] => true
  | [], _ :: _ => false
  | c :: cs, d :: ds => c = d && startsWithL cs ds

/-- Substring test on character lists: Python's `needle in hay`. -/
def hasSubL : List Char → List Char → Bool
  | hay, needle =>
    if startsWithL hay needle then true
    else
      match hay with
      | [] => false
      | _ :: rest => hasSubL rest needle

/-- Python's `needle in hay` on strings. -/
def strContains (hay needle : String) : Bool := hasSubL hay.data needle.data

/-- Python string truthiness combined with a filter check: in
`search_books`, `if author and author.lower() not in ...` skips the check
when the filter is `None` or empty. -/
def applyFilter (o : Option String) (test : String → Bool) : Bool :=
  match o with
  | none => true
  | some f => if strIsEmpty f then true else test f

/-- The library catalog (`models/catalog.py`, `LibraryCatalog`).
`library_path` is omitted: no operation under verification reads it. -/
structure LibraryCatalog where
  books : List Book
  videos : List Video
  last_updated : Option String

namespace LibraryCatalog

/-- Loop body of `LibraryCatalog.find_book`. -/
def findBookAux (tl : String) : List Book → Option Book
  | [] => none
  | b :: rest => if strLower b.title = tl then some b else findBookAux tl rest

/-- Model of `LibraryCatalog.find_book`: case-insensitive exact title match,
first match wins, `None` when absent. -/
def find_book (c : LibraryCatalog) (title : String) : Option Book :=
  findBookAux (strLower title) c.books

/-- Loop body of `LibraryCatalog.find_video`. -/
def findVideoAux (vid : String) : List Video → Option Video
  | [] => none
  | v :: rest => if v.video_id = vid then some v else findVideoAux vid rest

/-- Model of `LibraryCatalog.find_video`: exact match on the video id. -/
def find_video (c : LibraryCatalog) (video_id : String) : Option Video :=
  findVideoAux video_id c.videos

/-- The per-book predicate of `LibraryCatalog.search_books`: all supplied
filters must pass (the loop `continue`s when any fails). -/
def bookMatches (author category tag title : Option String) (b : Book) : Bool :=
  applyFilter author (fun f => strContains (strLower b.author) (strLower f)) &&
  applyFilter category
    (fun f => b.categories.any fun cat =>
      strContains (strLower cat) (strLower f)) &&
  applyFilter tag
    (fun f => b.tags.any fun t => strContains (strLower t) (strLower f)) &&
  applyFilter title (fun f => strContains (strLower b.title) (strLower f))

/-- Model of `LibraryCatalog.search_books` from `models/catalog.py`. -/
def search_books (c : LibraryCatalog)
    (author category tag title : Option String) : List Book :=
  c.books.filter (bookMatches author category tag title)

/-- The per-video predicate of `LibraryCatalog.search_videos`. -/
def videoMatches (channel category tag title : Option String) (v : Video) :
    Bool :=
  applyFilter channel
    (fun f => strContains (strLower v.channel_title) (strLower f)) &&
  applyFilter category
    (fun f => v.manifest.categories.any
      fun cat => strContains (strLower cat) (strLower f)) &&
  applyFilter tag
    (fun f => v.tags.any fun t => strContains (strLower t) (strLower f)) &&
  applyFilter title (fun f => strContains (strLower v.title) (strLower f))

/-- Model of `LibraryCatalog.search_videos` from `models/catalog.py`. -/
def search_videos (c : LibraryCatalog)
    (channel category tag title : Option String) : List Video :=
  c.videos.filter (videoMatches channel category tag title)

/-- Number of distinct authors: `len(get_all_authors())` where
`get_all_authors` returns the sorted set of authors (sorting does not
affect the count). -/
def uniqueAuthors (c : LibraryCatalog) : Nat :=
  ((c.books.map Book.author).dedup).length

/-- Number of distinct categories over all books and videos
(`get_all_categories`). -/
def uniqueCategories (c : LibraryCatalog) : Nat :=
  ((c.books.flatMap Book.categories ++
    c.videos.flatMap fun v => v.manifest.categories).dedup).length

/-- Number of distinct tags over all books and videos (`get_all_tags`). -/
def uniqueTags (c : LibraryCatalog) : Nat :=
  ((c.books.flatMap Book.tags ++ c.videos.flatMap Video.tags).dedup).length

end LibraryCatalog

/-- The statistics record returned by `LibraryCatalog.get_stats`. -/
structure Stats where
  total_books : Nat
  total_videos : Nat
  total_items : Nat
  unique_authors : Nat
  unique_categories : Nat
  unique_tags : Nat
  book_formats : Nat
  book_summaries : Nat
  video_summaries : Nat
  last_updated : Option String

namespace LibraryCatalog

/-- Model of `LibraryCatalog.get_stats` from `models/catalog.py`. -/
def get_stats (c : LibraryCatalog) : Stats :=
  { total_books := c.books.length
    total_videos := c.videos.length
    total_items := c.books.length + c.videos.length
    unique_authors := c.uniqueAuthors
    unique_categories := c.uniqueCategories
    unique_tags := c.uniqueTags
    book_formats := (c.books.map fun b => b.list_formats.length).sum
    book_summaries := (c.books.map fun b => b.list_summaries.length).sum
    video_summaries := (c.videos.map fun v => v.list_summaries.length).sum
    last_updated := c.last_updated }

end LibraryCatalog

/-- A `Stats` record with the timestamp erased, for comparing two stats
results "identical except `last_updated`". -/
def eraseTime (s : Stats) : Stats := { s with last_updated := none }

/-- Contents of a `manifest.yaml` file on disk: either text that
`yaml.safe_load` rejects, or a parsed YAML value. -/
inductive ManifestData where
  | corrupt : ManifestData
  | parsed : Yaml → ManifestData

/-- A book folder inside an author directory, as seen by
`rebuild_catalog`'s inner `iterdir` loop: its name, whether it is a
directory, and its `manifest.yaml` if present. -/
structure BookDirEntry where
  name : String
  isDir : Bool
  manifest : Option ManifestData

/-- An entry of the `books/` directory: an author directory (or a stray
file) and its contents. -/
structure AuthorDirEntry where
  name : String
  isDir : Bool
  books : List BookDirEntry

/-- A video folder inside a channel directory. -/
structure VideoDirEntry where
  name : String
  isDir : Bool
  manifest : Option ManifestData

/-- An entry of the `videos/` directory. -/
structure ChannelDirEntry where
  name : String
  isDir : Bool
  videos : List VideoDirEntry

/-- Projection of one book written into the catalog file by
`save_catalog` (title, author, folder_path, categories, tags). -/
structure SavedBookEntry where
  title : String
  author : String
  folder_path : LibPath
  categories : List String
  tags : List String

/-- Projection of one video written into the catalog file by
`save_catalog`. -/
structure SavedVideoEntry where
  video_id : String
  title : String
  channel_id : String
  channel_title : String
  folder_path : LibPath
  categories : List String
  tags : List String
  published_at : Option PyDateTime

/-- Parsed contents of `catalog.yaml` as written by `save_catalog`. -/
structure CatalogFileContent where
  version : String
  last_updated : Option String
  books : List SavedBookEntry
  videos : List SavedVideoEntry
  stats : Stats

/-- Contents of the `catalog.yaml` file: either text `yaml.safe_load`
rejects, or the parsed structure. -/
inductive CatFileData where
  | corrupt : CatFileData
  | parsed : CatalogFileContent → CatFileData

/-- The filesystem state of one library root: the `books/` tree, the
`videos/` tree, and the `catalog.yaml` file (absent, corrupt, or
parsed). The `_index` directories are ordinary named entries of the
trees. -/
structure LibState where
  booksTree : List AuthorDirEntry
  videosTree : List ChannelDirEntry
  catalogFile : Option CatFileData

/-- Folder existence and manifest lookup for a resource path
(`Path.exists()` plus reading `folder/manifest.yaml`): `none` when the
folder does not exist, otherwise the state of its manifest file.
Resource folders live at `books/<author>/<title>` or
`videos/<channel>/<video>`. -/
def folderInfo (st : LibState) (p : LibPath) : Option (Option ManifestData) :=
  match p with
  | ["books", a, t] =>
    (st.booksTree.find? fun e => e.name = a && e.isDir).bind fun ad =>
      (ad.books.find? fun b => b.name = t && b.isDir).map fun bd => bd.manifest
  | ["videos", ch, vi] =>
    (st.videosTree.find? fun e => e.name = ch && e.isDir).bind fun cd =>
      (cd.videos.find? fun v => v.name = vi && v.isDir).map fun vd => vd.manifest
  | _ => none

/-- The error taxonomy of the load paths: `corruptCatalog` is
`yaml.YAMLError` raised while parsing `catalog.yaml` (the spec's
`CorruptCatalog`); the manifest errors arise from `Book.from_folder` /
`Video.from_folder` (`FileNotFoundError`, `yaml.YAMLError`,
`pydantic.ValidationError` respectively). -/
inductive LoadErr where
  | corruptCatalog : LoadErr
  | manifestMissing : LoadErr
  | corruptManifest : LoadErr
  | invalidManifest : LoadErr
deriving DecidableEq

/-- Model of `Book.from_folder` on an existing folder with the given manifest file
state (`models/book.py` plus `utils/io.py`, `load_book_manifest`). -/
def bookFromFolder (p : LibPath) (mf : Option ManifestData) :
    Except LoadErr Book :=
  match mf with
  | none => .error .manifestMissing
  | some .corrupt => .error .corruptManifest
  | some (.parsed v) =>
    match decodeBookManifest v with
    | some m => .ok ⟨p, m⟩
    | none => .error .invalidManifest

/-- Model of `Video.from_folder` on an existing folder with the given manifest
file state. -/
def videoFromFolder (p : LibPath) (mf : Option ManifestData) :
    Except LoadErr Video :=
  match mf with
  | none => .error .manifestMissing
  | some .corrupt => .error .corruptManifest
  | some (.parsed v) =>
    match decodeVideoManifest v with
    | some m => .ok ⟨p, m⟩
    | none => .error .invalidManifest

namespace CatalogManager

/-- The books loop of `load_catalog`: each listed entry whose folder
exists is re-resolved through `Book.from_folder` (failures propagate —
there is no try/except here); entries whose folder no longer exists are
skipped. -/
def loadBookEntries (st : LibState) : List SavedBookEntry →
    Except LoadErr (List Book)
  | [] => .ok []
  | e :: rest =>
    match folderInfo st e.folder_path with
    | none => loadBookEntries st rest
    | some mf =>
      match bookFromFolder e.folder_path mf with
      | .error err => .error err
      | .ok b =>
        match loadBookEntries st rest with
        | .error err => .error err
        | .ok bs => .ok (b :: bs)

/-- The videos loop of `load_catalog`. -/
def loadVideoEntries (st : LibState) : List SavedVideoEntry →
    Except LoadErr (List Video)
  | [] => .ok []
  | e :: rest =>
    match folderInfo st e.folder_path with
    | none => loadVideoEntries st rest
    | some mf =>
      match videoFromFolder e.folder_path mf with
      | .error err => .error err
      | .ok v =>
        match loadVideoEntries st rest with
        | .error err => .error err
        | .ok vs => .ok (v :: vs)

/-- Model of `CatalogManager.load_catalog` from `core/catalog_manager.py`:
empty catalog when the file is absent; `yaml.YAMLError` (modelled
`corruptCatalog`) when it exists but does not parse; otherwise each
listed entry is re-resolved from its folder. -/
def load_catalog (st : LibState) : Except LoadErr LibraryCatalog :=
  match st.catalogFile with
  | none => .ok ⟨[], [], none⟩
  | some .corrupt => .error .corruptCatalog
  | some (.parsed content) =>
    match loadBookEntries st content.books with
    | .error err => .error err
    | .ok bs =>
      match loadVideoEntries st content.videos with
      | .error err => .error err
      | .ok vs => .ok ⟨bs, vs, content.last_updated⟩

/-- The book projection `save_catalog` writes. -/
def savedBookEntry (b : Book) : SavedBookEntry :=
  ⟨b.title, b.author, b.folder_path, b.categories, b.tags⟩

/-- The video projection `save_catalog` writes. -/
def savedVideoEntry (v : Video) : SavedVideoEntry :=
  ⟨v.video_id, v.title, v.channel_id, v.channel_title, v.folder_path,
   v.manifest.categories, v.tags, v.published_at⟩

/-- Model of `CatalogManager.save_catalog`: stamps `last_updated` to now (the
`t` argument), writes version, projections, and stats to
`catalog.yaml`. Only the catalog file changes. -/
def save_catalog (st : LibState) (c : LibraryCatalog) (t : String) : LibState :=
  { st with
    catalogFile := some (.parsed
      { version := "1.0"
        last_updated := some t
        books := c.books.map savedBookEntry
        videos := c.videos.map savedVideoEntry
        stats := LibraryCatalog.get_stats { c with last_updated := some t } }) }

/-- Candidate book folders of the `rebuild_catalog` scan, in iteration
order: directories one level under a non-`_index` author directory that
contain a `manifest.yaml`, paired with that manifest's contents. -/
def bookCandidates (tree : List AuthorDirEntry) : List (LibPath × ManifestData) :=
  tree.flatMap fun a =>
    if a.name = "_index" || !a.isDir then []
    else
      a.books.flatMap fun b =>
        if !b.isDir then []
        else
          match b.manifest with
          | some mf => [(["books", a.name, b.name], mf)]
          | none => []

/-- Candidate video folders of the `rebuild_catalog` scan. -/
def videoCandidates (tree : List ChannelDirEntry) :
    List (LibPath × ManifestData) :=
  tree.flatMap fun c =>
    if c.name = "_index" || !c.isDir then []
    else
      c.videos.flatMap fun v =>
        if !v.isDir then []
        else
          match v.manifest with
          | some mf => [(["videos", c.name, v.name], mf)]
          | none => []

/-- The try/except body of the books scan: a folder whose manifest fails
to load is recorded as a warning and skipped, never fatal. Returns the
loaded books and the warned-about folders. -/
def scanBooks : List (LibPath × ManifestData) → List Book × List LibPath
  | [] => ([], [])
  | (p, mf) :: rest =>
    let r := scanBooks rest
    match bookFromFolder p (some mf) with
    | .ok b => (b :: r.1, r.2)
    | .error _ => (r.1, p :: r.2)

/-- The try/except body of the videos scan. -/
def scanVideos : List (LibPath × ManifestData) → List Video × List LibPath
  | [] => ([], [])
  | (p, mf) :: rest =>
    let r := scanVideos rest
    match videoFromFolder p (some mf) with
    | .ok v => (v :: r.1, r.2)
    | .error _ => (r.1, p :: r.2)

/-- Model of `CatalogManager.rebuild_catalog`: scans both trees, skipping and
warning on unloadable manifests, builds a fresh catalog stamped `t`, and
persists it via `save_catalog`. Returns the catalog, the warned-about
folders (in scan order, books before videos), and the new filesystem
state. Total by construction: the scan never raises. -/
def rebuild_catalog (st : LibState) (t : String) :
    LibraryCatalog × List LibPath × LibState :=
  let rb := scanBooks (bookCandidates st.booksTree)
  let rv := scanVideos (videoCandidates st.videosTree)
  let c : LibraryCatalog := ⟨rb.1, rv.1, some t⟩
  (c, rb.2 ++ rv.2, save_catalog st c t)

/-- The in-memory upsert of `add_book` (lines 192-202 of
`core/catalog_manager.py`): replace in place when a book with the same
`folder_path` exists, append otherwise. -/
def upsertBook (books : List Book) (book : Book) : List Book :=
  if books.any fun b => b.folder_path = book.folder_path then
    books.map fun b => if b.folder_path ≠ book.folder_path then b else book
  else
    books ++ [book]

/-- The in-memory upsert of `add_video`, keyed on `video_id`. -/
def upsertVideo (videos : List Video) (video : Video) : List Video :=
  if videos.any fun v => v.video_id = video.video_id then
    videos.map fun v => if v.video_id ≠ video.video_id then v else video
  else
    videos ++ [video]

/-- Model of `CatalogManager.add_book`: load, upsert by `folder_path`, save. -/
def add_book (st : LibState) (book : Book) (t : String) :
    Except LoadErr LibState :=
  match load_catalog st with
  | .error err => .error err
  | .ok c => .ok (save_catalog st { c with books := upsertBook c.books book } t)

/-- Model of `CatalogManager.add_video`: load, upsert by `video_id`, save. -/
def add_video (st : LibState) (video : Video) (t : String) :
    Except LoadErr LibState :=
  match load_catalog st with
  | .error err => .error err
  | .ok c =>
    .ok (save_catalog st { c with videos := upsertVideo c.videos video } t)

/-- Model of `CatalogManager.remove_book`: load, filter out the matching entry,
save only if the list shrank; returns whether removal occurred. No
resource folder or file is touched. -/
def remove_book (st : LibState) (p : LibPath) (t : String) :
    Except LoadErr (Bool × LibState) :=
  match load_catalog st with
  | .error err => .error err
  | .ok c =>
    let remaining := c.books.filter fun b => b.folder_path ≠ p
    if remaining.length < c.books.length then
      .ok (true, save_catalog st { c with books := remaining } t)
    else
      .ok (false, st)

/-- Model of `CatalogManager.remove_video`: same, keyed on `video_id`. -/
def remove_video (st : LibState) (vid : String) (t : String) :
    Except LoadErr (Bool × LibState) :=
  match load_catalog st with
  | .error err => .error err
  | .ok c =>
    let remaining := c.videos.filter fun v => v.video_id ≠ vid
    if remaining.length < c.videos.length then
      .ok (true, save_catalog st { c with videos := remaining } t)
    else
      .ok (false, st)

end CatalogManager

/-- Characters kept by `slugify`'s first step, `re.sub(r"[^\w\s-]", "")`:
word characters, whitespace, and hyphens (ASCII level). -/
def slugKeep (c : Char) : Bool :=
  c.isAlphanum || c = '_' || c.isWhitespace || c = '-'

/-- Second step of `slugify`, `re.sub(r"[-\s]+", "-")`: collapse each run
of hyphens/whitespace into a single hyphen. The flag records whether a
run is pending. -/
def collapseSeps : List Char → Bool → List Char
  | [], _ => []
  | c :: rest, pending =>
    if c = '-' || c.isWhitespace then collapseSeps rest true
    else if pending then '-' :: c :: collapseSeps rest false
    else c :: collapseSeps rest false

/-- Third step of `slugify`, `.strip("-")`. -/
def stripDashes (l : List Char) : List Char :=
  ((l.dropWhile fun c => c = '-').reverse.dropWhile fun c => c = '-').reverse

/-- Model of `slugify` from `sources/book_ingestion.py`: lowercase, drop
non-word/space/hyphen characters, collapse separator runs to single
hyphens, strip leading/trailing hyphens. `collapseSeps` differs from the
regex only on separator runs at the ends of the string, which
`.strip("-")` erases in both renderings. -/
def slugify (s : String) : String :=
  ⟨stripDashes (collapseSeps ((strLower s).data.filter slugKeep) false)⟩

/-- Split a character list at its first comma, if any (Python
`author.split(",", 1)`). -/
def splitFirstComma (l : List Char) : Option (List Char × List Char) :=
  match l with
  | [] => none
  | c :: rest =>
    if c = ',' then some ([], rest)
    else (splitFirstComma rest).map fun p => (c :: p.1, p.2)

/-- Accumulator loop for `splitWS`; the accumulator holds the current
word reversed. -/
def splitWSAcc : List Char → List Char → List String
  | [], [] => []
  | [], acc => [⟨acc.reverse⟩]
  | c :: rest, acc =>
    if c.isWhitespace then
      match acc with
      | [] => splitWSAcc rest []
      | _ :: _ => (⟨acc.reverse⟩ : String) :: splitWSAcc rest []
    else splitWSAcc rest (c :: acc)

/-- Python `str.split()` with no argument: split on whitespace runs,
dropping empty pieces. -/
def splitWS (s : String) : List String := splitWSAcc s.data []

/-- Model of `parse_author_name` from `sources/book_ingestion.py`: returns
`(firstname, lastname)` handling the `"Last, First"`, `"First Last"`,
and single-name forms. -/
def parse_author_name (author : String) : String × String :=
  let a := strTrim author
  match splitFirstComma a.data with
  | some (lastC, firstC) => (strTrim ⟨firstC⟩, strTrim ⟨lastC⟩)
  | none =>
    match splitWS a with
    | [] => ("", "")
    | [single] => ("", single)
    | f :: rest => (f, joinWith " " rest)

/-- Model of `create_book_folder_path` from `sources/book_ingestion.py`, as path
components: `[author-slug, title-slug]` where the author slug is
`lastname-firstname` (slugified), or `unknown` when no name part is
available. -/
def create_book_folder_path (title author : String) : LibPath :=
  let titleSlug := slugify title
  let p := parse_author_name author
  let authorSlug :=
    if !strIsEmpty p.1 && !strIsEmpty p.2 then slugify p.2 ++ "-" ++ slugify p.1
    else if !strIsEmpty p.2 then slugify p.2
    else "unknown"
  [authorSlug, titleSlug]

/-- Ingestion failures (`sources/book_ingestion.py`): `alreadyExists` is
the `ValueError("Book already exists: ...")` raised when the destination
folder exists (the spec's `AlreadyExists`); the missing-metadata errors
are the explicit `ValueError`s for undeterminable title/author. -/
inductive IngestErr where
  | alreadyExists : IngestErr
  | missingTitle : IngestErr
  | missingAuthor : IngestErr
deriving DecidableEq

/-- Python string truthiness of an optional string (`if not title`):
`None` and the empty string are both falsy. -/
def pyTruthy (o : Option String) : Option String :=
  match o with
  | none => none
  | some s => if strIsEmpty s then none else some s

/-- Formats mapping built by `BookIngestion.add_book`: source files whose
detected format is `pdf` or `epub` are copied as `<title-slug>.<fmt>`, and
the extracted text is always saved as `<title-slug>.md` under the
`markdown` key. -/
def mkIngestFormats (title : String) (srcFormats : List String) :
    List (String × String) :=
  ((srcFormats.filter fun f => f = "pdf" || f = "epub").map
    fun f => (f, slugify title ++ "." ++ f)) ++
  [("markdown", slugify title ++ ".md")]

/-- Write a freshly ingested book folder `books/<a>/<t>` holding the
manifest `m` into the filesystem state (the `mkdir` + file copies +
`save_book_manifest` tail of `add_book`). -/
def writeBookFolder (st : LibState) (a t : String) (m : BookManifest) :
    LibState :=
  let entry : BookDirEntry := ⟨t, true, some (.parsed m.to_yaml_dict)⟩
  if st.booksTree.any fun e => e.name = a && e.isDir then
    { st with
      booksTree := st.booksTree.map fun e =>
        if e.name = a && e.isDir then { e with books := e.books ++ [entry] }
        else e }
  else
    { st with booksTree := st.booksTree ++ [⟨a, true, [entry]⟩] }

/-- Model of `BookIngestion.add_book` from the point where title/author extraction
has finished (everything before is read-only parsing of the source
files): validate that a title and author were determined, compute the
deterministic destination `books/<author-slug>/<title-slug>`, refuse with
`alreadyExists` when that folder exists — before anything is written —
and otherwise create the folder with its copied formats and manifest. -/
def ingestAddBook (st : LibState) (title author isbn : Option String)
    (categories tags : List String) (srcFormats : List String) :
    Except IngestErr (Book × LibState) :=
  match pyTruthy title with
  | none => .error .missingTitle
  | some ti =>
    match pyTruthy author with
    | none => .error .missingAuthor
    | some au =>
      let rel := create_book_folder_path ti au
      let dest : LibPath := "books" :: rel
      match folderInfo st dest with
      | some _ => .error .alreadyExists
      | none =>
        let m : BookManifest :=
          ⟨ti, au, categories, isbn, joinWith "/" rel,
           mkIngestFormats ti srcFormats, [], tags, "pending"⟩
        match rel with
        | [a, t] => .ok (⟨dest, m⟩, writeBookFolder st a t m)
        | _ => .ok (⟨dest, m⟩, st)

/-- Model of `BookIngestion.add_book_from_folder` from the point where metadata
extraction has finished: identical destination computation and
`AlreadyExists` refusal; on success the folder additionally receives the
scanned summary files. -/
def ingestAddBookFromFolder (st : LibState) (title author isbn : Option String)
    (categories tags : List String) (srcFormats : List String)
    (summaries : List (String × String)) : Except IngestErr (Book × LibState) :=
  match pyTruthy title with
  | none => .error .missingTitle
  | some ti =>
    match pyTruthy author with
    | none => .error .missingAuthor
    | some au =>
      let rel := create_book_folder_path ti au
      let dest : LibPath := "books" :: rel
      match folderInfo st dest with
      | some _ => .error .alreadyExists
      | none =>
        let m : BookManifest :=
          ⟨ti, au, categories, isbn, joinWith "/" rel,
           mkIngestFormats ti srcFormats, summaries, tags, "pending"⟩
        match rel with
        | [a, t] => .ok (⟨dest, m⟩, writeBookFolder st a t m)
        | _ => .ok (⟨dest, m⟩, st)

/-- Outcome of one scan attempt: the book when the manifest loads, `none`
when `Book.from_folder` raises. -/
def tryBook (c : LibPath × ManifestData) : Option Book :=
  match bookFromFolder c.1 (some c.2) with
  | .ok b => some b
  | .error _ => none

/-- Outcome of one video scan attempt. -/
def tryVideo (c : LibPath × ManifestData) : Option Video :=
  match videoFromFolder c.1 (some c.2) with
  | .ok v => some v
  | .error _ => none

theorem scanBooks_fst (l : List (LibPath × ManifestData)) :
    (CatalogManager.scanBooks l).1 = l.filterMap tryBook := by
  induction l with
  | nil => rfl
  | cons c rest ih =>
    obtain ⟨p, mf⟩ := c
    simp only [CatalogManager.scanBooks, List.filterMap_cons]
    cases h : bookFromFolder p (some mf) <;> simp [tryBook, h, ih]

theorem scanBooks_snd (l : List (LibPath × ManifestData)) :
    (CatalogManager.scanBooks l).2 =
      (l.filter fun c => (tryBook c).isNone).map Prod.fst := by
  induction l with
  | nil => rfl
  | cons c rest ih =>
    obtain ⟨p, mf⟩ := c
    simp only [CatalogManager.scanBooks, List.filter_cons]
    cases h : bookFromFolder p (some mf) <;> simp [tryBook, h, ih]

theorem scanVideos_fst (l : List (LibPath × ManifestData)) :
    (CatalogManager.scanVideos l).1 = l.filterMap tryVideo := by
  induction l with
  | nil => rfl
  | cons c rest ih =>
    obtain ⟨p, mf⟩ := c
    simp only [CatalogManager.scanVideos, List.filterMap_cons]
    cases h : videoFromFolder p (some mf) <;> simp [tryVideo, h, ih]

theorem scanVideos_snd (l : List (LibPath × ManifestData)) :
    (CatalogManager.scanVideos l).2 =
      (l.filter fun c => (tryVideo c).isNone).map Prod.fst := by
  induction l with
  | nil => rfl
  | cons c rest ih =>
    obtain ⟨p, mf⟩ := c
    simp only [CatalogManager.scanVideos, List.filter_cons]
    cases h : videoFromFolder p (some mf) <;> simp [tryVideo, h, ih]

theorem length_filterMap_eq_length_filter {α β : Type} (f : α → Option β)
    (l : List α) :
    (l.filterMap f).length = (l.filter fun x => (f x).isSome).length := by
  induction l with
  | nil => rfl
  | cons x rest ih =>
    simp only [List.filterMap_cons, List.filter_cons]
    cases h : f x <;> simp [h, ih]

/-- Claim C1: upsert semantics of `add_book` / `add_video`. Adding a book
whose `folder_path` matches an existing catalog entry replaces that entry
in place (pointwise map) and leaves the catalog size unchanged; adding a
book with a fresh `folder_path` appends it, growing the catalog by
exactly one. The same holds for videos keyed on `video_id`. -/
theorem C1_upsert_semantics (books : List Book) (book : Book)
    (videos : List Video) (video : Video) :
    ((∃ x ∈ books, x.folder_path = book.folder_path) →
      CatalogManager.upsertBook books book =
        books.map (fun x => if x.folder_path ≠ book.folder_path then x else book) ∧
      (CatalogManager.upsertBook books book).length = books.length) ∧
    ((¬∃ x ∈ books, x.folder_path = book.folder_path) →
      CatalogManager.upsertBook books book = books ++ [book] ∧
      (CatalogManager.upsertBook books book).length = books.length + 1) ∧
    ((∃ x ∈ videos, x.video_id = video.video_id) →
      CatalogManager.upsertVideo videos video =
        videos.map (fun x => if x.video_id ≠ video.video_id then x else video) ∧
      (CatalogManager.upsertVideo videos video).length = videos.length) ∧
    ((¬∃ x ∈ videos, x.video_id = video.video_id) →
      CatalogManager.upsertVideo videos video = videos ++ [video] ∧
      (CatalogManager.upsertVideo videos video).length = videos.length + 1) := by
  refine ⟨?_, ?_, ?_, ?_⟩
  · intro h
    have ha : (books.any fun x => decide (x.folder_path = book.folder_path)) = true := by
      simp only [List.any_eq_true, decide_eq_true_eq]
      exact h
    simp [CatalogManager.upsertBook, ha]
  · intro h
    have ha : (books.any fun x => decide (x.folder_path = book.folder_path)) = false := by
      simp only [List.any_eq_false, decide_eq_true_eq]
      intro x hx he
      exact h ⟨x, hx, he⟩
    simp [CatalogManager.upsertBook, ha]
  · intro h
    have ha : (videos.any fun x => decide (x.video_id = video.video_id)) = true := by
      simp only [List.any_eq_true, decide_eq_true_eq]
      exact h
    simp [CatalogManager.upsertVideo, ha]
  · intro h
    have ha : (videos.any fun x => decide (x.video_id = video.video_id)) = false := by
      simp only [List.any_eq_false, decide_eq_true_eq]
      intro x hx he
      exact h ⟨x, hx, he⟩
    simp [CatalogManager.upsertVideo, ha]

/-- Sample book at `books/smith-john/python-guide`. -/
def wBookA : Book :=
  ⟨["books", "smith-john", "python-guide"],
   ⟨"Python Guide", "John Smith", ["Programming"], none,
    "smith-john/python-guide", [("markdown", "python-guide.md")], [],
    ["python"], "pending"⟩⟩

/-- Sample book at the same folder as `wBookA` with changed metadata. -/
def wBookB : Book :=
  ⟨["books", "smith-john", "python-guide"],
   ⟨"Python Guide 2e", "John Smith", [], none, "smith-john/python-guide",
    [], [], [], "ready"⟩⟩

/-- Sample book at a distinct folder. -/
def wBookC : Book :=
  ⟨["books", "doe-jane", "lean-basics"],
   ⟨"Lean Basics", "Jane Doe", [], none, "doe-jane/lean-basics", [], [],
    [], "pending"⟩⟩

/-- Sample video with id `abc123def45`. -/
def wVideoA : Video :=
  ⟨["videos", "chan", "abc123def45__intro"],
   ⟨"abc123def45", "Intro", "", none, [], "c1", "Chan", [], [], none, none,
    some "en", some "en", [], [], []⟩⟩

/-- Sample video with the same id as `wVideoA` and a different title. -/
def wVideoB : Video :=
  ⟨["videos", "chan", "abc123def45__intro"],
   ⟨"abc123def45", "Intro Revised", "", none, [], "c1", "Chan", [], [],
    none, none, some "en", some "en", [], [], []⟩⟩

/-- Sample video with a distinct id. -/
def wVideoC : Video :=
  ⟨["videos", "chan", "zzz999zzz99__other"],
   ⟨"zzz999zzz99", "Other", "", none, [], "c1", "Chan", [], [], none, none,
    some "en", some "en", [], [], []⟩⟩

/-- Witness for C1 at concrete one-element catalogs. -/
theorem C1_upsert_semantics_witness :
    (CatalogManager.upsertBook [wBookA] wBookB).length = 1 ∧
    CatalogManager.upsertBook [wBookA] wBookC = [wBookA] ++ [wBookC] ∧
    (CatalogManager.upsertVideo [wVideoA] wVideoB).length = 1 ∧
    CatalogManager.upsertVideo [wVideoA] wVideoC = [wVideoA] ++ [wVideoC] := by
  refine ⟨((C1_upsert_semantics [wBookA] wBookB [] wVideoA).1
      ⟨wBookA, by simp, rfl⟩).2,
    ((C1_upsert_semantics [wBookA] wBookC [] wVideoA).2.1 (by decide)).1,
    ((C1_upsert_semantics [] wBookA [wVideoA] wVideoB).2.2.1
      ⟨wVideoA, by simp, rfl⟩).2,
    ((C1_upsert_semantics [] wBookA [wVideoA] wVideoC).2.2.2 (by decide)).1⟩

theorem findBookAux_eq_none (tl : String) (l : List Book) :
    LibraryCatalog.findBookAux tl l = none ↔ ∀ b ∈ l, strLower b.title ≠ tl := by
  induction l with
  | nil => simp [LibraryCatalog.findBookAux]
  | cons b rest ih =>
    by_cases h : strLower b.title = tl
    · simp [LibraryCatalog.findBookAux, h]
    · simp [LibraryCatalog.findBookAux, h, ih]

theorem findBookAux_eq_some (tl : String) (l : List Book) (b : Book)
    (h : LibraryCatalog.findBookAux tl l = some b) :
    ∃ l1 l2, l = l1 ++ b :: l2 ∧ strLower b.title = tl ∧
      ∀ x ∈ l1, strLower x.title ≠ tl := by
  induction l with
  | nil => simp [LibraryCatalog.findBookAux] at h
  | cons hd rest ih =>
    by_cases hhd : strLower hd.title = tl
    · rw [LibraryCatalog.findBookAux, if_pos hhd] at h
      obtain rfl : hd = b := by injection h
      exact ⟨[], rest, rfl, hhd, by simp⟩
    · rw [LibraryCatalog.findBookAux, if_neg hhd] at h
      obtain ⟨l1, l2, rfl, hb, hall⟩ := ih h
      refine ⟨hd :: l1, l2, rfl, hb, ?_⟩
      intro x hx
      rcases List.mem_cons.mp hx with rfl | hx2
      · exact hhd
      · exact hall x hx2

/-- Claim C9: `find_book` semantics. `find_book(title)` returns `none`
exactly when no book's title matches the query case-insensitively, and
when it returns a book, that book is the first match in the catalog's
held iteration order (everything before it in `books` fails the
case-insensitive comparison). A non-match is an absent result — the
function is total and returns an `Option`, never an error. -/
theorem C9_find_book_semantics (c : LibraryCatalog) (title : String) :
    (c.find_book title = none ↔
      ∀ b ∈ c.books, strLower b.title ≠ strLower title) ∧
    (∀ b, c.find_book title = some b →
      ∃ l1 l2, c.books = l1 ++ b :: l2 ∧ strLower b.title = strLower title ∧
        ∀ x ∈ l1, strLower x.title ≠ strLower title) := by
  exact ⟨findBookAux_eq_none (strLower title) c.books,
    fun b h => findBookAux_eq_some (strLower title) c.books b h⟩

/-- Witness for C9: a hit (case-insensitive, first match) and a miss. -/
theorem C9_find_book_semantics_witness :
    ((⟨[wBookA], [], none⟩ : LibraryCatalog).find_book "pYtHoN gUiDe" =
        some wBookA → strLower wBookA.title = strLower "pYtHoN gUiDe") ∧
    ((⟨[wBookA], [], none⟩ : LibraryCatalog).find_book "Absent Title" = none) := by
  constructor
  · intro h
    obtain ⟨l1, l2, he, hb, hall⟩ :=
      (C9_find_book_semantics ⟨[wBookA], [], none⟩ "pYtHoN gUiDe").2 wBookA h
    exact hb
  · exact ((C9_find_book_semantics ⟨[wBookA], [], none⟩ "Absent Title").1).mpr
      (by decide)

theorem lookupStr_eq_none (l : List (String × String)) (k : String) :
    lookupStr l k = none ↔ k ∉ l.map Prod.fst := by
  induction l with
  | nil => simp [lookupStr]
  | cons p rest ih =>
    by_cases h : p.1 = k
    · subst h
      simp [lookupStr]
    · rw [lookupStr, if_neg h, ih]
      simp only [List.map_cons, List.mem_cons, not_or]
      constructor
      · intro hk
        exact ⟨fun he => h he.symm, hk⟩
      · intro hk
        exact hk.2

theorem lookupStr_isSome (l : List (String × String)) (k : String) :
    k ∈ l.map Prod.fst ↔ ∃ rel, lookupStr l k = some rel := by
  constructor
  · intro h
    cases hl : lookupStr l k with
    | none => exact absurd ((lookupStr_eq_none l k).mp hl) (not_not_intro h)
    | some rel => exact ⟨rel, rfl⟩
  · intro ⟨rel, hl⟩
    by_contra hk
    rw [(lookupStr_eq_none l k).mpr hk] at hl
    exact Option.noConfusion hl

/-- Claim C10: totality of the format/summary path accessors. For every
book and key, `get_format_path` / `get_summary_path` are total functions
into `Option`: when the key is present in the manifest's mapping they
return `folder_path / relpath` for the stored relative path, and when it
is absent they return `none` — never an exception. Likewise
`Video.get_summary_path`. -/
theorem C10_path_accessors_total (b : Book) (v : Video) (k : String) :
    (k ∈ b.manifest.formats.map Prod.fst →
      ∃ rel, lookupStr b.manifest.formats k = some rel ∧
        b.get_format_path k = some (pathJoin b.folder_path rel)) ∧
    (k ∉ b.manifest.formats.map Prod.fst → b.get_format_path k = none) ∧
    (k ∈ b.manifest.summaries.map Prod.fst →
      ∃ rel, lookupStr b.manifest.summaries k = some rel ∧
        b.get_summary_path k = some (pathJoin b.folder_path rel)) ∧
    (k ∉ b.manifest.summaries.map Prod.fst → b.get_summary_path k = none) ∧
    (k ∈ v.manifest.summaries.map Prod.fst →
      ∃ rel, lookupStr v.manifest.summaries k = some rel ∧
        v.get_summary_path k = some (pathJoin v.folder_path rel)) ∧
    (k ∉ v.manifest.summaries.map Prod.fst → v.get_summary_path k = none) := by
  refine ⟨?_, ?_, ?_, ?_, ?_, ?_⟩
  · intro h
    obtain ⟨rel, hl⟩ := (lookupStr_isSome _ _).mp h
    exact ⟨rel, hl, by rw [Book.get_format_path, hl]⟩
  · intro h
    rw [Book.get_format_path, (lookupStr_eq_none _ _).mpr h]
  · intro h
    obtain ⟨rel, hl⟩ := (lookupStr_isSome _ _).mp h
    exact ⟨rel, hl, by rw [Book.get_summary_path, hl]⟩
  · intro h
    rw [Book.get_summary_path, (lookupStr_eq_none _ _).mpr h]
  · intro h
    obtain ⟨rel, hl⟩ := (lookupStr_isSome _ _).mp h
    exact ⟨rel, hl, by rw [Video.get_summary_path, hl]⟩
  · intro h
    rw [Video.get_summary_path, (lookupStr_eq_none _ _).mpr h]

/-- Witness for C10 at a concrete book and video: present key resolves
under the folder, absent key gives `none`. -/
theorem C10_path_accessors_total_witness :
    (∃ rel, lookupStr wBookA.manifest.formats "markdown" = some rel ∧
      wBookA.get_format_path "markdown" =
        some (pathJoin wBookA.folder_path rel)) ∧
    wBookA.get_format_path "epub" = none ∧
    wBookA.get_summary_path "shortform" = none ∧
    wVideoA.get_summary_path "shortform" = none := by
  refine ⟨(C10_path_accessors_total wBookA wVideoA "markdown").1 (by decide),
    (C10_path_accessors_total wBookA wVideoA "epub").2.1 (by decide),
    (C10_path_accessors_total wBookA wVideoA "shortform").2.2.2.1 (by decide),
    (C10_path_accessors_total wBookA wVideoA "shortform").2.2.2.2.2 (by decide)⟩

/-- Model of `save_book_manifest` from `utils/io.py`: the manifest file written
for a book is the YAML serialization of `to_yaml_dict`. -/
def save_book_manifest (m : BookManifest) : ManifestData :=
  .parsed m.to_yaml_dict

/-- Model of `load_book_manifest` from `utils/io.py` applied to a manifest file's
contents: parse the YAML, then validate with `BookManifest(**data)`. -/
def load_book_manifest : ManifestData → Except LoadErr BookManifest
  | .corrupt => .error .corruptManifest
  | .parsed v =>
    match decodeBookManifest v with
    | some m => .ok m
    | none => .error .invalidManifest

/-- Model of `save_video_manifest` from `utils/io.py`. -/
def save_video_manifest (m : VideoManifest) : ManifestData :=
  .parsed m.to_yaml_dict

/-- Model of `load_video_manifest` from `utils/io.py` applied to a manifest
file's contents. -/
def load_video_manifest : ManifestData → Except LoadErr VideoManifest
  | .corrupt => .error .corruptManifest
  | .parsed v =>
    match decodeVideoManifest v with
    | some m => .ok m
    | none => .error .invalidManifest

/-- Claim C5: manifest round-trip. Saving any valid book manifest and
loading it back reproduces every field exactly, and likewise for any
valid video manifest (valid meaning its optional `publishedAt`, when
present, is an in-range datetime — the only field with a nontrivial
serialization). In particular `isbn = none` loads back as `none`, not as
an empty string, and `publishedAt = none` loads back as `none`: the
decoders distinguish YAML null from the empty string by construction. -/
theorem C5_manifest_roundtrip :
    (∀ m : BookManifest, load_book_manifest (save_book_manifest m) = .ok m) ∧
    (∀ m : VideoManifest, (∀ d, m.publishedAt = some d → ValidDT d) →
      load_video_manifest (save_video_manifest m) = .ok m) := by
  constructor
  · intro m
    rw [save_book_manifest, load_book_manifest, decode_book_to_yaml_dict]
  · intro m h
    rw [save_video_manifest, load_video_manifest,
      decode_video_to_yaml_dict m h]

/-- Sample book manifest with `isbn = none`. -/
def wBMnoIsbn : BookManifest :=
  ⟨"Python Guide", "John Smith", ["Programming"], none,
   "smith-john/python-guide", [("markdown", "python-guide.md")],
   [("shortform", "summaries/python-guide-shortform.md")], ["python"],
   "pending"⟩

/-- Sample video manifest with a present `publishedAt` and thumbnails in
both accepted shapes. -/
def wVMfull : VideoManifest :=
  ⟨"abc123def45", "Intro", "A video.", some "https:u",
   [("default", .vstr "https:t"),
    ("high", .vdict [("url", .str "https:h"), ("width", .int 480)])],
   "c1", "Chan", ["tag1"], ["AI"], some "27",
   some ⟨2024, 1, 2, 3, 4, 5⟩, some "en", some "en",
   [("transcript_path", "source/transcript.json")], [], []⟩

/-- Witness for C5 at a concrete book manifest (with `isbn = none`) and a
concrete video manifest (with `publishedAt` present). -/
theorem C5_manifest_roundtrip_witness :
    load_book_manifest (save_book_manifest wBMnoIsbn) = .ok wBMnoIsbn ∧
    load_video_manifest (save_video_manifest wVMfull) = .ok wVMfull := by
  refine ⟨C5_manifest_roundtrip.1 wBMnoIsbn,
    C5_manifest_roundtrip.2 wVMfull ?_⟩
  intro d hd
  rw [show wVMfull.publishedAt = some ⟨2024, 1, 2, 3, 4, 5⟩ from rfl] at hd
  injection hd with hd2
  rw [← hd2]
  decide

theorem startsWithL_nil (hay : List Char) : startsWithL hay [] = true := by
  cases hay <;> rfl

theorem strContains_empty_needle (s : String) : strContains s "" = true := by
  obtain ⟨data⟩ := s
  cases data <;> rfl

theorem strIsEmpty_true_iff (s : String) : strIsEmpty s = true ↔ s = "" := by
  obtain ⟨data⟩ := s
  cases data with
  | nil => simp [strIsEmpty]
  | cons c rest =>
    simp only [strIsEmpty]
    constructor
    · intro h
      exact Bool.noConfusion h
    · intro h
      have : (String.mk (c :: rest)).data = ("" : String).data := by rw [h]
      simp at this

/-- Specification-side reading of a scalar filter of `search_books` /
`search_videos`: when supplied, the lowercased field must contain the
lowercased filter string. -/
def strFilterOk (o : Option String) (field : String) : Prop :=
  ∀ f, o = some f → strContains (strLower field) (strLower f) = true

/-- Specification-side reading of a set-valued filter (categories/tags):
when supplied, some element of the set must contain the filter string,
case-insensitively. -/
def elemFilterOk (o : Option String) (elems : List String) : Prop :=
  ∀ f, o = some f → ∃ e ∈ elems, strContains (strLower e) (strLower f) = true

theorem applyFilter_str_iff (o : Option String) (field : String) :
    applyFilter o (fun f => strContains (strLower field) (strLower f)) = true ↔
      strFilterOk o field := by
  cases o with
  | none =>
    simp only [applyFilter, strFilterOk]
    constructor
    · intro _ f hf
      exact Option.noConfusion hf
    · intro _
      trivial
  | some f =>
    by_cases he : strIsEmpty f = true
    · obtain rfl := (strIsEmpty_true_iff f).mp he
      simp only [applyFilter, he, if_true, strFilterOk, Option.some.injEq,
        forall_eq, true_iff]
      intro f2 hf2
      rw [← hf2]
      exact strContains_empty_needle (strLower field)
    · simp only [applyFilter, he, if_false, Bool.if_false_left, strFilterOk,
        Option.some.injEq, forall_eq]
      simp [he]

theorem applyFilter_any_iff (o : Option String) (elems : List String)
    (h : ∀ f, o = some f → strIsEmpty f = false) :
    applyFilter o
      (fun f => elems.any fun e => strContains (strLower e) (strLower f)) =
        true ↔ elemFilterOk o elems := by
  cases o with
  | none =>
    simp only [applyFilter, elemFilterOk]
    constructor
    · intro _ f hf
      exact Option.noConfusion hf
    · intro _
      trivial
  | some f =>
    have he : strIsEmpty f = false := h f rfl
    simp only [applyFilter, he, if_false, Bool.false_eq_true, elemFilterOk,
      Option.some.injEq, List.any_eq_true]
    constructor
    · intro hx f2 hf2
      rw [← hf2]
      exact hx
    · intro hx
      exact hx f rfl

/-- Counterexample to C6 as stated: the empty string is a supplied
filter, but Python falsiness makes the code skip it. A book with zero
categories is returned by `search_books(category="")` even though no
element of its (empty) category set contains the empty substring. -/
def wBookNoCats : Book :=
  ⟨["books", "x", "y"],
   ⟨"Untagged", "Nobody", [], none, "x/y", [], [], [], "pending"⟩⟩

/-- Counterexample for claim C6: with a supplied (but empty-string)
category filter, `search_books` returns a zero-category book although the
claimed per-filter substring condition fails for it. -/
theorem C6_search_composition_counterexample :
    LibraryCatalog.search_books ⟨[wBookNoCats], [], none⟩
      none (some "") none none = [wBookNoCats] ∧
    ¬∃ e ∈ wBookNoCats.categories,
      strContains (strLower e) (strLower "") = true := by
  constructor
  · rfl
  · decide

/-- Claim C6 (amended): search filter composition. Calling with no
filters (or with empty-string filters, which Python truthiness treats as
omitted) returns every resource; each supplied non-empty filter is a
case-insensitive substring test on the corresponding field (for
categories and tags: some element of the set contains the substring);
filters compose with AND (membership characterization); and
`search_books(author=A, category=C)` equals, elementwise, the
intersection of the single-filter searches — the intersection law holds
for all filter strings, empty or not. The analogous statements hold for
`search_videos`. -/
theorem C6_search_composition (c : LibraryCatalog)
    (a cg tg ti ch : Option String) :
    (c.search_books none none none none = c.books) ∧
    (c.search_videos none none none none = c.videos) ∧
    (c.search_books (some "") (some "") (some "") (some "") = c.books) ∧
    (c.search_videos (some "") (some "") (some "") (some "") = c.videos) ∧
    ((∀ f, cg = some f → strIsEmpty f = false) →
     (∀ f, tg = some f → strIsEmpty f = false) →
      ∀ b, b ∈ c.search_books a cg tg ti ↔
        b ∈ c.books ∧ strFilterOk a b.author ∧ elemFilterOk cg b.categories ∧
        elemFilterOk tg b.tags ∧ strFilterOk ti b.title) ∧
    ((∀ f, cg = some f → strIsEmpty f = false) →
     (∀ f, tg = some f → strIsEmpty f = false) →
      ∀ v, v ∈ c.search_videos ch cg tg ti ↔
        v ∈ c.videos ∧ strFilterOk ch v.channel_title ∧
        elemFilterOk cg v.manifest.categories ∧ elemFilterOk tg v.tags ∧
        strFilterOk ti v.title) ∧
    (∀ A C b, b ∈ c.search_books (some A) (some C) none none ↔
      b ∈ c.search_books (some A) none none none ∧
      b ∈ c.search_books none (some C) none none) ∧
    (∀ Ch Cc v, v ∈ c.search_videos (some Ch) (some Cc) none none ↔
      v ∈ c.search_videos (some Ch) none none none ∧
      v ∈ c.search_videos none (some Cc) none none) := by
  refine ⟨?_, ?_, ?_, ?_, ?_, ?_, ?_, ?_⟩
  · exact List.filter_eq_self.mpr fun b _ => rfl
  · exact List.filter_eq_self.mpr fun v _ => rfl
  · exact List.filter_eq_self.mpr fun b _ => rfl
  · exact List.filter_eq_self.mpr fun v _ => rfl
  · intro hcg htg b
    rw [LibraryCatalog.search_books, List.mem_filter,
      LibraryCatalog.bookMatches]
    simp only [Bool.and_eq_true]
    rw [applyFilter_str_iff, applyFilter_any_iff _ _ hcg,
      applyFilter_any_iff _ _ htg, applyFilter_str_iff]
    tauto
  · intro hcg htg v
    rw [LibraryCatalog.search_videos, List.mem_filter,
      LibraryCatalog.videoMatches]
    simp only [Bool.and_eq_true]
    rw [applyFilter_str_iff, applyFilter_any_iff _ _ hcg,
      applyFilter_any_iff _ _ htg, applyFilter_str_iff]
    tauto
  · intro A C b
    simp only [LibraryCatalog.search_books, List.mem_filter,
      LibraryCatalog.bookMatches, Bool.and_eq_true]
    have hn : ∀ test : String → Bool, applyFilter none test = true := fun _ => rfl
    simp only [hn]
    tauto
  · intro Ch Cc v
    simp only [LibraryCatalog.search_videos, List.mem_filter,
      LibraryCatalog.videoMatches, Bool.and_eq_true]
    have hn : ∀ test : String → Bool, applyFilter none test = true := fun _ => rfl
    simp only [hn]
    tauto

/-- Witness for C6: the spec scenario — a book with category
`Programming` is found by `search_books(author="smith",
category="prog")` (lowercase substring, case-insensitive). -/
theorem C6_search_composition_witness :
    wBookA ∈ (⟨[wBookA], [], none⟩ : LibraryCatalog).search_books
      (some "smith") (some "prog") none none := by
  refine ((C6_search_composition ⟨[wBookA], [], none⟩ (some "smith")
      (some "prog") none none none).2.2.2.2.1 ?_ ?_ wBookA).mpr
    ⟨by simp, ?_, ?_, ?_, ?_⟩
  · intro f hf
    injection hf with hf2
    rw [← hf2]
    decide
  · intro f hf
    exact Option.noConfusion hf
  · intro f hf
    injection hf with hf2
    rw [← hf2]
    decide
  · intro f hf
    injection hf with hf2
    rw [← hf2]
    exact ⟨"Programming", by decide, by decide⟩
  · intro f hf
    exact Option.noConfusion hf
  · intro f hf
    exact Option.noConfusion hf

/-- Claim C3: idempotent rebuild. `rebuild_catalog` only writes the
catalog file, never the resource trees, so running it twice with no
filesystem changes in between yields the same book list and the same
video list (hence equal sets), and `get_stats` results that agree on
every field except `last_updated`. -/
theorem C3_rebuild_idempotent (st : LibState) (t1 t2 : String) :
    (CatalogManager.rebuild_catalog
        (CatalogManager.rebuild_catalog st t1).2.2 t2).1.books =
      (CatalogManager.rebuild_catalog st t1).1.books ∧
    (CatalogManager.rebuild_catalog
        (CatalogManager.rebuild_catalog st t1).2.2 t2).1.videos =
      (CatalogManager.rebuild_catalog st t1).1.videos ∧
    eraseTime (LibraryCatalog.get_stats
        (CatalogManager.rebuild_catalog
          (CatalogManager.rebuild_catalog st t1).2.2 t2).1) =
      eraseTime (LibraryCatalog.get_stats
        (CatalogManager.rebuild_catalog st t1).1) := by
  exact ⟨rfl, rfl, rfl⟩

/-- Claim C2: corrupt-entry isolation in rebuild. If the books tree
yields exactly one scan candidate whose manifest fails to load and `N`
candidates that load, then `rebuild_catalog` returns normally (it is a
total function: the per-entry try/except is the `tryBook` filterMap), its
catalog holds exactly the `N` valid books, its warning list names
exactly the one corrupt folder (before any video warnings), and the
persisted catalog file also holds exactly `N` books. -/
theorem C2_rebuild_corrupt_isolation (st : LibState) (t : String)
    (cp : LibPath) (cmf : ManifestData) (N : Nat)
    (h1 : (CatalogManager.bookCandidates st.booksTree).filter
        (fun c => (tryBook c).isNone) = [(cp, cmf)])
    (h2 : ((CatalogManager.bookCandidates st.booksTree).filter
        (fun c => (tryBook c).isSome)).length = N) :
    (CatalogManager.rebuild_catalog st t).1.books =
      (CatalogManager.bookCandidates st.booksTree).filterMap tryBook ∧
    (CatalogManager.rebuild_catalog st t).1.books.length = N ∧
    (CatalogManager.rebuild_catalog st t).2.1 =
      cp :: (CatalogManager.scanVideos
        (CatalogManager.videoCandidates st.videosTree)).2 ∧
    (∃ content, (CatalogManager.rebuild_catalog st t).2.2.catalogFile =
      some (.parsed content) ∧ content.books.length = N) := by
  have hb : (CatalogManager.rebuild_catalog st t).1.books =
      (CatalogManager.bookCandidates st.booksTree).filterMap tryBook :=
    scanBooks_fst _
  refine ⟨hb, ?_, ?_, ?_⟩
  · rw [hb, length_filterMap_eq_length_filter, h2]
  · show (CatalogManager.scanBooks
        (CatalogManager.bookCandidates st.booksTree)).2 ++ _ = _
    rw [scanBooks_snd, h1]
    rfl
  · refine ⟨_, rfl, ?_⟩
    show ((CatalogManager.scanBooks
      (CatalogManager.bookCandidates st.booksTree)).1.map
        CatalogManager.savedBookEntry).length = N
    rw [List.length_map, scanBooks_fst, length_filterMap_eq_length_filter, h2]

/-- Concrete library state for the C2 witness: two valid book folders
and one whose manifest file is corrupt, plus an `_index` directory that
the scan skips. -/
def wState2 : LibState :=
  ⟨[⟨"smith-john", true,
      [⟨"python-guide", true, some (.parsed wBookA.manifest.to_yaml_dict)⟩]⟩,
    ⟨"_index", true, []⟩,
    ⟨"doe-jane", true,
      [⟨"lean-basics", true, some (.parsed wBookC.manifest.to_yaml_dict)⟩,
       ⟨"broken", true, some .corrupt⟩]⟩],
   [], none⟩

/-- Witness for C2: rebuilding `wState2` catalogs the two valid books
and warns exactly about the corrupt folder. -/
theorem C2_rebuild_corrupt_isolation_witness :
    (CatalogManager.rebuild_catalog wState2 "ts").1.books.length = 2 ∧
    (CatalogManager.rebuild_catalog wState2 "ts").2.1 =
      [["books", "doe-jane", "broken"]] := by
  have h := C2_rebuild_corrupt_isolation wState2 "ts"
    ["books", "doe-jane", "broken"] .corrupt 2 rfl rfl
  refine ⟨h.2.1, ?_⟩
  rw [h.2.2.1]
  rfl

theorem bookFromFolder_err_ne_corruptCatalog (p : LibPath)
    (mf : Option ManifestData) (err : LoadErr)
    (h : bookFromFolder p mf = .error err) : err ≠ .corruptCatalog := by
  cases mf with
  | none =>
    injection h with h2
    rw [← h2]
    decide
  | some md =>
    cases md with
    | corrupt =>
      injection h with h2
      rw [← h2]
      decide
    | parsed v =>
      rw [bookFromFolder] at h
      cases hd : decodeBookManifest v with
      | some m =>
        rw [hd] at h
        exact Except.noConfusion h
      | none =>
        rw [hd] at h
        injection h with h2
        rw [← h2]
        decide

theorem videoFromFolder_err_ne_corruptCatalog (p : LibPath)
    (mf : Option ManifestData) (err : LoadErr)
    (h : videoFromFolder p mf = .error err) : err ≠ .corruptCatalog := by
  cases mf with
  | none =>
    injection h with h2
    rw [← h2]
    decide
  | some md =>
    cases md with
    | corrupt =>
      injection h with h2
      rw [← h2]
      decide
    | parsed v =>
      rw [videoFromFolder] at h
      cases hd : decodeVideoManifest v with
      | some m =>
        rw [hd] at h
        exact Except.noConfusion h
      | none =>
        rw [hd] at h
        injection h with h2
        rw [← h2]
        decide

theorem loadBookEntries_err_ne_corruptCatalog (st : LibState)
    (l : List SavedBookEntry) :
    ∀ err, CatalogManager.loadBookEntries st l = .error err →
      err ≠ .corruptCatalog := by
  induction l with
  | nil =>
    intro err h
    exact Except.noConfusion h
  | cons e rest ih =>
    intro err h
    rw [CatalogManager.loadBookEntries] at h
    cases hf : folderInfo st e.folder_path with
    | none =>
      simp only [hf] at h
      exact ih err h
    | some mf =>
      simp only [hf] at h
      cases hb : bookFromFolder e.folder_path mf with
      | error err2 =>
        simp only [hb] at h
        injection h with h2
        rw [← h2]
        exact bookFromFolder_err_ne_corruptCatalog _ _ _ hb
      | ok b =>
        simp only [hb] at h
        cases hr : CatalogManager.loadBookEntries st rest with
        | error err2 =>
          simp only [hr] at h
          injection h with h2
          rw [← h2]
          exact ih err2 hr
        | ok bs =>
          simp only [hr] at h
          exact Except.noConfusion h

theorem loadVideoEntries_err_ne_corruptCatalog (st : LibState)
    (l : List SavedVideoEntry) :
    ∀ err, CatalogManager.loadVideoEntries st l = .error err →
      err ≠ .corruptCatalog := by
  induction l with
  | nil =>
    intro err h
    exact Except.noConfusion h
  | cons e rest ih =>
    intro err h
    rw [CatalogManager.loadVideoEntries] at h
    cases hf : folderInfo st e.folder_path with
    | none =>
      simp only [hf] at h
      exact ih err h
    | some mf =>
      simp only [hf] at h
      cases hb : videoFromFolder e.folder_path mf with
      | error err2 =>
        simp only [hb] at h
        injection h with h2
        rw [← h2]
        exact videoFromFolder_err_ne_corruptCatalog _ _ _ hb
      | ok v =>
        simp only [hb] at h
        cases hr : CatalogManager.loadVideoEntries st rest with
        | error err2 =>
          simp only [hr] at h
          injection h with h2
          rw [← h2]
          exact ih err2 hr
        | ok vs =>
          simp only [hr] at h
          exact Except.noConfusion h

/-- Re-resolution of one listed book entry: `none` when its folder no
longer exists, otherwise the successfully loaded book. -/
def resolveBookEntry (st : LibState) (e : SavedBookEntry) : Option Book :=
  (folderInfo st e.folder_path).bind fun mf =>
    match bookFromFolder e.folder_path mf with
    | .ok b => some b
    | .error _ => none

/-- Re-resolution of one listed video entry. -/
def resolveVideoEntry (st : LibState) (e : SavedVideoEntry) : Option Video :=
  (folderInfo st e.folder_path).bind fun mf =>
    match videoFromFolder e.folder_path mf with
    | .ok v => some v
    | .error _ => none

theorem loadBookEntries_ok (st : LibState) (l : List SavedBookEntry)
    (h : ∀ e ∈ l, ∀ mf, folderInfo st e.folder_path = some mf →
      ∃ b, bookFromFolder e.folder_path mf = .ok b) :
    CatalogManager.loadBookEntries st l =
      .ok (l.filterMap (resolveBookEntry st)) := by
  induction l with
  | nil => rfl
  | cons e rest ih =>
    rw [CatalogManager.loadBookEntries, List.filterMap_cons]
    cases hf : folderInfo st e.folder_path with
    | none =>
      simp only [hf, show resolveBookEntry st e = none by
        rw [resolveBookEntry, hf]; rfl]
      exact ih fun e2 he2 => h e2 (List.mem_cons_of_mem e he2)
    | some mf =>
      obtain ⟨b, hb⟩ := h e (List.mem_cons_self e rest) mf hf
      simp only [hf, hb, show resolveBookEntry st e = some b by
        rw [resolveBookEntry, hf]; simp [hb]]
      rw [ih fun e2 he2 => h e2 (List.mem_cons_of_mem e he2)]

theorem loadVideoEntries_ok (st : LibState) (l : List SavedVideoEntry)
    (h : ∀ e ∈ l, ∀ mf, folderInfo st e.folder_path = some mf →
      ∃ v, videoFromFolder e.folder_path mf = .ok v) :
    CatalogManager.loadVideoEntries st l =
      .ok (l.filterMap (resolveVideoEntry st)) := by
  induction l with
  | nil => rfl
  | cons e rest ih =>
    rw [CatalogManager.loadVideoEntries, List.filterMap_cons]
    cases hf : folderInfo st e.folder_path with
    | none =>
      simp only [hf, show resolveVideoEntry st e = none by
        rw [resolveVideoEntry, hf]; rfl]
      exact ih fun e2 he2 => h e2 (List.mem_cons_of_mem e he2)
    | some mf =>
      obtain ⟨v, hv⟩ := h e (List.mem_cons_self e rest) mf hf
      simp only [hf, hv, show resolveVideoEntry st e = some v by
        rw [resolveVideoEntry, hf]; simp [hv]]
      rw [ih fun e2 he2 => h e2 (List.mem_cons_of_mem e he2)]

theorem load_catalog_parsed (st : LibState) (content : CatalogFileContent)
    (hc : st.catalogFile = some (.parsed content)) :
    CatalogManager.load_catalog st =
      match CatalogManager.loadBookEntries st content.books with
      | .error err => .error err
      | .ok bs =>
        match CatalogManager.loadVideoEntries st content.videos with
        | .error err => .error err
        | .ok vs => .ok ⟨bs, vs, content.last_updated⟩ := by
  rw [CatalogManager.load_catalog, hc]

/-- Claim C4: load contract. `load_catalog` returns an empty catalog (no
error) when the catalog file is absent; when the file is present and
parseable, every listed entry is re-resolved by reading its manifest
from `folder_path` (provided those reads succeed) and entries whose
folder no longer exists are silently dropped; and it fails with
`CorruptCatalog` exactly when the catalog file exists but cannot be
parsed as structured data. -/
theorem C4_load_contract (st : LibState) :
    (st.catalogFile = none →
      CatalogManager.load_catalog st = .ok ⟨[], [], none⟩) ∧
    (∀ content, st.catalogFile = some (.parsed content) →
      (∀ e ∈ content.books, ∀ mf, folderInfo st e.folder_path = some mf →
        ∃ b, bookFromFolder e.folder_path mf = .ok b) →
      (∀ e ∈ content.videos, ∀ mf, folderInfo st e.folder_path = some mf →
        ∃ v, videoFromFolder e.folder_path mf = .ok v) →
      CatalogManager.load_catalog st =
        .ok ⟨content.books.filterMap (resolveBookEntry st),
             content.videos.filterMap (resolveVideoEntry st),
             content.last_updated⟩) ∧
    (CatalogManager.load_catalog st = .error .corruptCatalog ↔
      st.catalogFile = some .corrupt) := by
  refine ⟨?_, ?_, ?_⟩
  · intro h
    rw [CatalogManager.load_catalog, h]
  · intro content hc hb hv
    simp only [load_catalog_parsed st content hc, loadBookEntries_ok st _ hb,
      loadVideoEntries_ok st _ hv]
  · cases hc : st.catalogFile with
    | none =>
      rw [CatalogManager.load_catalog, hc]
      constructor
      · intro h
        exact Except.noConfusion h
      · intro h
        exact Option.noConfusion h
    | some cf =>
      cases cf with
      | corrupt =>
        rw [CatalogManager.load_catalog, hc]
        exact ⟨fun _ => rfl, fun _ => rfl⟩
      | parsed content =>
        constructor
        · intro h
          rw [load_catalog_parsed st content hc] at h
          cases hbe : CatalogManager.loadBookEntries st content.books with
          | error err =>
            simp only [hbe] at h
            injection h with h2
            exact absurd h2
              (loadBookEntries_err_ne_corruptCatalog st _ err hbe)
          | ok bs =>
            simp only [hbe] at h
            cases hve : CatalogManager.loadVideoEntries st content.videos with
            | error err =>
              simp only [hve] at h
              injection h with h2
              exact absurd h2
                (loadVideoEntries_err_ne_corruptCatalog st _ err hve)
            | ok vs =>
              simp only [hve] at h
              exact Except.noConfusion h
        · intro h
          injection h with h2
          exact CatFileData.noConfusion h2

/-- Stats block of the sample catalog file (load ignores it). -/
def wStats : Stats := ⟨1, 0, 1, 1, 1, 1, 1, 0, 0, some "ts"⟩

/-- Catalog-file projection of `wBookA`. -/
def wSavedA : SavedBookEntry := CatalogManager.savedBookEntry wBookA

/-- A stale catalog entry whose folder no longer exists. -/
def wSavedStale : SavedBookEntry :=
  ⟨"Gone", "Nobody", ["books", "gone", "gone"], [], []⟩

/-- Sample parsed catalog file listing one live and one stale book. -/
def wContent4 : CatalogFileContent :=
  ⟨"1.0", some "ts", [wSavedA, wSavedStale], [], wStats⟩

/-- Sample library state for the C4 witness: the catalog file lists
`wBookA` (whose folder and manifest exist) and a stale entry. -/
def wState4 : LibState :=
  ⟨[⟨"smith-john", true,
      [⟨"python-guide", true, some (.parsed wBookA.manifest.to_yaml_dict)⟩]⟩],
   [], some (.parsed wContent4)⟩

/-- Witness for C4: absent file loads as the empty catalog, a corrupt
file raises `CorruptCatalog`, and a parseable file re-resolves the live
entry and silently drops the stale one. -/
theorem C4_load_contract_witness :
    CatalogManager.load_catalog ⟨[], [], none⟩ = .ok ⟨[], [], none⟩ ∧
    CatalogManager.load_catalog ⟨[], [], some .corrupt⟩ =
      .error .corruptCatalog ∧
    CatalogManager.load_catalog wState4 = .ok ⟨[wBookA], [], some "ts"⟩ := by
  refine ⟨(C4_load_contract ⟨[], [], none⟩).1 rfl,
    ((C4_load_contract ⟨[], [], some .corrupt⟩).2.2).mpr rfl, ?_⟩
  have hb : ∀ e ∈ wContent4.books, ∀ mf,
      folderInfo wState4 e.folder_path = some mf →
      ∃ b, bookFromFolder e.folder_path mf = .ok b := by
    intro e he mf hmf
    rcases List.mem_cons.mp he with rfl | he2
    · rw [show folderInfo wState4 wSavedA.folder_path =
          some (some (.parsed wBookA.manifest.to_yaml_dict)) from rfl] at hmf
      injection hmf with h2
      exact ⟨wBookA, by rw [← h2]; rfl⟩
    · rcases List.mem_cons.mp he2 with rfl | he3
      · rw [show folderInfo wState4 wSavedStale.folder_path = none
            from rfl] at hmf
        exact Option.noConfusion hmf
      · exact absurd he3 (List.not_mem_nil e)
  have hv : ∀ e ∈ wContent4.videos, ∀ mf,
      folderInfo wState4 e.folder_path = some mf →
      ∃ v, videoFromFolder e.folder_path mf = .ok v := by
    intro e he mf hmf
    exact absurd he (List.not_mem_nil e)
  exact ((C4_load_contract wState4).2.1 wContent4 rfl hb hv).trans rfl

theorem length_filter_lt_of_mem {α : Type} (l : List α) (q : α → Bool) (x : α)
    (hx : x ∈ l) (hqx : q x = false) : (l.filter q).length < l.length := by
  induction l with
  | nil => exact absurd hx (List.not_mem_nil x)
  | cons a rest ih =>
    rcases List.mem_cons.mp hx with rfl | hx2
    · rw [List.filter_cons, hqx]
      exact Nat.lt_succ_of_le (List.length_filter_le q rest)
    · rw [List.filter_cons]
      cases hqa : q a
      · simp only [Bool.false_eq_true, if_false]
        exact Nat.lt_succ_of_lt (ih hx2)
      · simp only [if_true, List.length_cons]
        exact Nat.succ_lt_succ (ih hx2)

/-- Claim C7: removal is non-destructive and a no-op leaves state
untouched. When the loaded catalog holds an entry with the given
`folder_path`, `remove_book` returns `true`, leaves both resource trees
untouched, and the saved catalog file contains no entry with that
`folder_path`; when nothing matches it returns `false` and the state —
in particular the catalog file and its `last_updated` stamp — is exactly
the input state. No resource folder or file is ever deleted, so a
subsequent `rebuild_catalog` re-adds any resource whose folder still
holds a loadable manifest. The same holds for `remove_video` keyed on
`video_id`. -/
theorem C7_remove_nondestructive (st : LibState) (p : LibPath) (vid : String)
    (t t2 : String) (c : LibraryCatalog)
    (hload : CatalogManager.load_catalog st = .ok c) :
    ((∃ b ∈ c.books, b.folder_path = p) →
      ∃ st2, CatalogManager.remove_book st p t = .ok (true, st2) ∧
        st2.booksTree = st.booksTree ∧ st2.videosTree = st.videosTree ∧
        ∃ content, st2.catalogFile = some (.parsed content) ∧
          ∀ e ∈ content.books, e.folder_path ≠ p) ∧
    ((∀ b ∈ c.books, b.folder_path ≠ p) →
      CatalogManager.remove_book st p t = .ok (false, st)) ∧
    (∀ res st2 mf bk, CatalogManager.remove_book st p t = .ok (res, st2) →
      (p, mf) ∈ CatalogManager.bookCandidates st2.booksTree →
      bookFromFolder p (some mf) = .ok bk →
      bk ∈ (CatalogManager.rebuild_catalog st2 t2).1.books) ∧
    ((∃ v ∈ c.videos, v.video_id = vid) →
      ∃ st2, CatalogManager.remove_video st vid t = .ok (true, st2) ∧
        st2.booksTree = st.booksTree ∧ st2.videosTree = st.videosTree ∧
        ∃ content, st2.catalogFile = some (.parsed content) ∧
          ∀ e ∈ content.videos, e.video_id ≠ vid) ∧
    ((∀ v ∈ c.videos, v.video_id ≠ vid) →
      CatalogManager.remove_video st vid t = .ok (false, st)) ∧
    (∀ res st2 mf vo vp, CatalogManager.remove_video st vid t = .ok (res, st2) →
      (vp, mf) ∈ CatalogManager.videoCandidates st2.videosTree →
      videoFromFolder vp (some mf) = .ok vo →
      vo ∈ (CatalogManager.rebuild_catalog st2 t2).1.videos) := by
  refine ⟨?_, ?_, ?_, ?_, ?_, ?_⟩
  · intro ⟨b, hb, hbp⟩
    simp only [CatalogManager.remove_book, hload]
    have hlt : (c.books.filter fun b2 => decide (b2.folder_path ≠ p)).length <
        c.books.length :=
      length_filter_lt_of_mem c.books _ b hb (by simp [hbp])
    rw [if_pos hlt]
    refine ⟨_, rfl, rfl, rfl, _, rfl, ?_⟩
    intro e he
    rw [List.mem_map] at he
    obtain ⟨b2, hb2, rfl⟩ := he
    exact of_decide_eq_true (List.mem_filter.mp hb2).2
  · intro h
    simp only [CatalogManager.remove_book, hload]
    rw [List.filter_eq_self.mpr fun b hb => decide_eq_true (h b hb),
      if_neg (lt_irrefl c.books.length)]
  · intro res st2 mf bk _ hmem hfb
    rw [show (CatalogManager.rebuild_catalog st2 t2).1.books =
      (CatalogManager.bookCandidates st2.booksTree).filterMap tryBook from
        scanBooks_fst _]
    exact List.mem_filterMap.mpr ⟨(p, mf), hmem, by simp [tryBook, hfb]⟩
  · intro ⟨v, hv, hvid⟩
    simp only [CatalogManager.remove_video, hload]
    have hlt : (c.videos.filter fun v2 => decide (v2.video_id ≠ vid)).length <
        c.videos.length :=
      length_filter_lt_of_mem c.videos _ v hv (by simp [hvid])
    rw [if_pos hlt]
    refine ⟨_, rfl, rfl, rfl, _, rfl, ?_⟩
    intro e he
    rw [List.mem_map] at he
    obtain ⟨v2, hv2, rfl⟩ := he
    exact of_decide_eq_true (List.mem_filter.mp hv2).2
  · intro h
    simp only [CatalogManager.remove_video, hload]
    rw [List.filter_eq_self.mpr fun v hv => decide_eq_true (h v hv),
      if_neg (lt_irrefl c.videos.length)]
  · intro res st2 mf vo vp _ hmem hfb
    rw [show (CatalogManager.rebuild_catalog st2 t2).1.videos =
      (CatalogManager.videoCandidates st2.videosTree).filterMap tryVideo from
        scanVideos_fst _]
    exact List.mem_filterMap.mpr ⟨(vp, mf), hmem, by simp [tryVideo, hfb]⟩

/-- Witness for C7: removing the listed book from `wState4` succeeds and
a rebuild of the resulting state re-adds it (its folder was untouched);
removing an absent path or video id returns `false` with the state —
including `last_updated` — unchanged. -/
theorem C7_remove_nondestructive_witness :
    (∃ st2, CatalogManager.remove_book wState4
        ["books", "smith-john", "python-guide"] "t" = .ok (true, st2) ∧
      wBookA ∈ (CatalogManager.rebuild_catalog st2 "t2").1.books) ∧
    CatalogManager.remove_book wState4 ["books", "absent", "x"] "t" =
      .ok (false, wState4) ∧
    CatalogManager.remove_video wState4 "missing" "t" =
      .ok (false, wState4) := by
  have h := C7_remove_nondestructive wState4
    ["books", "smith-john", "python-guide"] "missing" "t" "t2"
    ⟨[wBookA], [], some "ts"⟩ rfl
  refine ⟨?_, ?_, ?_⟩
  · obtain ⟨st2, hrem, hbt, hvt, hcontent⟩ := h.1 ⟨wBookA, by simp, rfl⟩
    refine ⟨st2, hrem, ?_⟩
    refine h.2.2.1 true st2 (.parsed wBookA.manifest.to_yaml_dict) wBookA
      hrem ?_ rfl
    rw [hbt]
    exact List.Mem.head _
  · exact (C7_remove_nondestructive wState4 ["books", "absent", "x"] "m2"
      "t" "t2" ⟨[wBookA], [], some "ts"⟩ rfl).2.1 (by decide)
  · exact h.2.2.2.2.1 (by decide)

/-- Claim C8: ingestion refuses to overwrite. For every ingestion input
from which a (truthy) title and author are determined, if the
deterministically-computed destination folder
`books/<author-slug>/<title-slug>` already exists, both `add_book` and
`add_book_from_folder` fail with the `AlreadyExists` error (the
`ValueError("Book already exists: ...")` of the source) and produce no
new filesystem state — the existence check precedes every write into the
destination, so nothing is written into that folder. -/
theorem C8_ingest_refuses_overwrite (st : LibState) (ti au : String)
    (isbn : Option String) (categories tags srcFormats : List String)
    (summaries : List (String × String))
    (h1 : strIsEmpty ti = false) (h2 : strIsEmpty au = false)
    (h3 : (folderInfo st ("books" :: create_book_folder_path ti au)).isSome =
      true) :
    ingestAddBook st (some ti) (some au) isbn categories tags srcFormats =
      .error .alreadyExists ∧
    ingestAddBookFromFolder st (some ti) (some au) isbn categories tags
      srcFormats summaries = .error .alreadyExists := by
  obtain ⟨x, hx⟩ := Option.isSome_iff_exists.mp h3
  constructor
  · rw [ingestAddBook]
    simp only [pyTruthy, h1, h2, Bool.false_eq_true, if_false, hx]
  · rw [ingestAddBookFromFolder]
    simp only [pyTruthy, h1, h2, Bool.false_eq_true, if_false, hx]

/-- Witness for C8: the destination computed for title `Python Guide`
and author `John Smith` is `books/smith-john/python-guide`, which exists
in `wState4`, so both ingestion entry points refuse. -/
theorem C8_ingest_refuses_overwrite_witness :
    ingestAddBook wState4 (some "Python Guide") (some "John Smith") none
      [] [] ["epub"] = .error .alreadyExists ∧
    ingestAddBookFromFolder wState4 (some "Python Guide") (some "John Smith")
      none [] [] ["epub"] [] = .error .alreadyExists :=
  C8_ingest_refuses_overwrite wState4 "Python Guide" "John Smith" none
    [] [] ["epub"] [] (by decide) (by decide) (by decide)
